import Mathlib

/-!
# Verification of the enocean2mqtt ESP3 / EEP core

A shallow embedding, in Lean 4, of the parts of the `enocean2mqtt`
repository that the checked claims are about:

* the ESP3 frame codec (`src/enocean/protocol/packet.py`: `Packet.build`,
  `Packet.parse_msg`, `Packet.create`, `RadioPacket.parse`,
  `UTETeachInPacket.create_response_packet`, `ResponsePacket.parse`),
* the bit utilities (`src/enocean/utils.py`: `get_bits_from_bytearray`,
  `set_bits_in_bytearray`, `get_bits_from_byte`, `set_bits_to_byte`),
* the EEP profile engine (`src/enocean/protocol/eep.py`: `ProfileField`,
  `DataValue`, `DataEnum`, `DataStatus`, `ProfileData`,
  `TelegramFunctionGroup.get_values`),
* the signal-telegram table (`src/enocean/protocol/signal.py`),
* the controller scanner (`src/enocean/controller/basecontroller.py`:
  `BaseController.read`, `BaseController.parse_common_command_response`).

Python byte strings are embedded as `List Nat` (each element a byte value),
Python numbers as `ℤ`/`ℚ` (the spec's numeric claims are about exact decimal
arithmetic; IEEE-float representation error is out of scope of the claims and
is noted where rounding is modelled), and Python's mixed-type values
(`None`/int/float/str/bool) as the inductive `PyVal` below.  Fallible paths
(Python exceptions) are embedded as `Option`/`Except` or as explicit error
results, as noted at each definition.

Some helpers imported by the sources are not present under `src/`
(`enocean/protocol/crc8.py`, `to_bitarray`/`from_bitarray` in
`enocean/utils.py`, `Packet.parse_frame` in `enocean/protocol/packet.py`,
and the caller of the signal MID table).  Those are modelled from the
specification and marked `Modelled from the spec:` in their doc comments.
-/

namespace Enocean

/-! ## CRC-8 (modelled from the spec)

`src/enocean/protocol/packet.py` and `basecontroller.py` import
`enocean.protocol.crc8`, which is not under `src/`. -/

/-- One shift-and-xor round of the CRC-8 register: multiply by x and reduce
by the generator polynomial 0x07 when the top bit falls out, keeping the
register to one byte. -/
def crc8Round (c : Nat) : Nat :=
  if c.testBit 7 then ((c <<< 1) ^^^ 0x07) % 256 else (c <<< 1) % 256

/-- Absorb one input byte into the CRC-8 register: xor it in, then run eight
polynomial rounds. -/
def crc8Byte (c b : Nat) : Nat :=
  crc8Round (crc8Round (crc8Round (crc8Round
    (crc8Round (crc8Round (crc8Round (crc8Round (c ^^^ b))))))))

/-- Modelled from the spec: `crc8_calc` over a byte sequence — generator
polynomial `x^8 + x^2 + x + 1` (0x07), initial value 0x00, no reflection,
no final xor, MSB first (the ESP3 lookup-table CRC).  The module
`enocean/protocol/crc8.py` is imported by the sources but absent from
`src/`; `calc` is a Lean keyword, hence the name `crc8_calc`. -/
def crc8_calc (data : List Nat) : Nat :=
  data.foldl crc8Byte 0

set_option maxRecDepth 16384
/-! ## Packets and the frame codec (`src/enocean/protocol/packet.py`) -/

/-- The three outcomes of `Packet.parse_msg` (`PARSE_RESULT` in the
constants module of the packet code). -/
inductive ParseResult
  | OK
  | INCOMPLETE
  | CRC_MISMATCH
deriving DecidableEq, Repr

/-- A packet: `packet_type`, `data` and `optional` byte lists
(`Packet.__init__`).  The subclass attributes (`sender`, `destination`,
`learn`, `response_data`, …) are all computed from these three fields by the
various `parse` methods and are embedded below as functions of the
packet. -/
structure Packet where
  packet_type : Nat
  data : List Nat
  optional : List Nat
deriving DecidableEq, Repr

namespace Packet

/-- `Packet.build`: serialise a packet to the ESP3 wire bytes
`[0x55, dlen_hi, dlen_lo, olen, type, hcrc, …data, …optional, dcrc]`. -/
def build (p : Packet) : List Nat :=
  let dataLength := p.data.length
  let ords := [0x55, (dataLength >>> 8) &&& 0xFF, dataLength &&& 0xFF,
    p.optional.length, p.packet_type]
  let ords := ords ++ [crc8_calc (ords.drop 1)]
  let ords := ords ++ p.data ++ p.optional
  ords ++ [crc8_calc (ords.drop 6)]

/-- The tail of `Packet.parse_msg` after the header length fields are read:
length check, the two CRC checks and the slicing of
`packet_type = msg[4]`, `data = msg[6:DATA_END]`,
`opt_data = msg[DATA_END:OPT_DATA_END]`. -/
def parse_msg_framed (buf : List Nat) (dataLen optLen : Nat) :
    ParseResult × List Nat × Option Packet :=
  -- `DATA_END = 6 + data_len`, `OPT_DATA_END = DATA_END + opt_len`,
  -- `MSG_LEN = OPT_DATA_END + 1`, `msg = buf[0:MSG_LEN]`, `buf = buf[MSG_LEN:]`
  if buf.length < 6 + dataLen + optLen + 1 then (ParseResult.INCOMPLETE, buf, none)
  else if (buf.take (6 + dataLen + optLen + 1)).getD 5 0 ≠
      crc8_calc (((buf.take (6 + dataLen + optLen + 1)).drop 1).take 4) then
    (ParseResult.CRC_MISMATCH, buf.drop (6 + dataLen + optLen + 1), none)
  else if (buf.take (6 + dataLen + optLen + 1)).getD (6 + dataLen + optLen) 0 ≠
      crc8_calc ((((buf.take (6 + dataLen + optLen + 1)).drop 6)).take (dataLen + optLen)) then
    (ParseResult.CRC_MISMATCH, buf.drop (6 + dataLen + optLen + 1), none)
  else
    (ParseResult.OK, buf.drop (6 + dataLen + optLen + 1),
      some ⟨(buf.take (6 + dataLen + optLen + 1)).getD 4 0,
        (((buf.take (6 + dataLen + optLen + 1)).drop 6)).take dataLen,
        (((buf.take (6 + dataLen + optLen + 1)).drop (6 + dataLen))).take optLen⟩)

/-- `Packet.parse_msg` from the first sync byte on: read the header length
fields (their `IndexError` is the source's INCOMPLETE branch) and hand over
to the framed parser. -/
def parse_msg_synced (buf : List Nat) : ParseResult × List Nat × Option Packet :=
  -- `data_len = (buf[1] << 8) | buf[2]; opt_len = buf[3]`, whose
  -- `IndexError` (a buffer of at most 4 bytes) is the INCOMPLETE branch
  if buf.length ≤ 3 then (ParseResult.INCOMPLETE, buf, none)
  else parse_msg_framed buf (((buf.getD 1 0) <<< 8) ||| buf.getD 2 0) (buf.getD 3 0)

/-- `Packet.parse_msg`: scan a byte buffer for one message.  Returns the
parse result, the remaining buffer and the packet (when the message was
valid).  If no sync byte 0x55 is in the buffer the message is ignored;
otherwise the buffer is taken from the first 0x55 on.  The source then
constructs a subclass by `packet_type` and `data[0]`; the
subclass-computed attributes (`sender`, `learn`, …) are separate functions
of the `Packet` structure here. -/
def parse_msg (buf : List Nat) : ParseResult × List Nat × Option Packet :=
  if 0x55 ∈ buf then parse_msg_synced (buf.drop (buf.indexOf 0x55))
  else (ParseResult.INCOMPLETE, [], none)

end Packet

/-! The RORG bytes used by the claims (`src/enocean/protocol/constants.py`,
class `RORG`). -/

namespace RORG

def RPS : Nat := 0xF6
def BS4 : Nat := 0xA5
def SIGNAL : Nat := 0xD0
def MSC : Nat := 0xD1
def VLD : Nat := 0xD2
def UTE : Nat := 0xD4
def BS1 : Nat := 0xD5

end RORG

/-- The bits of one byte, most significant first (one byte's slice of the
documentation-order bit array). -/
def byteBits (b : Nat) : List Bool :=
  [b.testBit 7, b.testBit 6, b.testBit 5, b.testBit 4,
   b.testBit 3, b.testBit 2, b.testBit 1, b.testBit 0]

/-- Modelled from the spec: `to_bitarray(data, width)` from
`enocean/utils.py` as imported by `packet.py` but absent from `src/` —
the byte list as a boolean list, first byte's most significant bit first
(the EEP documentation bit order, spec §4.1).  The packet code always passes
`width = 8 * len(data)`, so the width argument is omitted. -/
def to_bitarray (data : List Nat) : List Bool :=
  (data.map byteBits).flatten

/-- Modelled from the spec: `from_bitarray(bits)` — the unsigned integer
whose binary digits, most significant first, are the given bits. -/
def from_bitarray (bits : List Bool) : Nat :=
  bits.foldl (fun acc b => 2 * acc + cond b 1 0) 0

/-- A Python negative list index `-k` (as used with the `DB0.BIT_3 = -4` …
constants of `constants.py`): element `len - k` counted from the front. -/
def bitFromEnd (bits : List Bool) (k : Nat) : Bool :=
  bits.getD (bits.length - k) false

namespace Packet

/-- `Packet._bit_data`: `to_bitarray(self.data[1:len-5], (len-6)*8)` — the
documentation-order bits of the payload region between the rorg byte and the
sender address. -/
def bit_data (p : Packet) : List Bool :=
  to_bitarray ((p.data.drop 1).take (p.data.length - 6))

/-- `RadioPacket.parse`: `self.rorg = self.data[0]`. -/
def rorg (p : Packet) : Nat := p.data.getD 0 0

/-- `RadioPacket.parse`: `self.sender = self.data[-5:-1]`. -/
def sender (p : Packet) : List Nat :=
  (p.data.drop (p.data.length - 5)).take 4

/-- `RadioPacket.parse`: `self.destination = self.optional[1:5]`. -/
def destination (p : Packet) : List Nat :=
  (p.optional.drop 1).take 4

/-- The user-data region `data[1:len-5]` between the rorg byte and the
sender address (the spec's `payload`). -/
def payload (p : Packet) : List Nat :=
  (p.data.drop 1).take (p.data.length - 6)

/-- `Packet.parse`: the status byte — `data[-1]` for RPS/BS1/BS4,
`optional[-1]` for VLD, otherwise the constructor default 0 (parse-built
packets are constructed with `status=0`). -/
def status (p : Packet) : Nat :=
  if p.rorg = RORG.RPS ∨ p.rorg = RORG.BS1 ∨ p.rorg = RORG.BS4 then
    p.data.getD (p.data.length - 1) 0
  else if p.rorg = RORG.VLD then p.optional.getD (p.optional.length - 1) 0
  else 0

/-- `RadioPacket.parse`: the learn flag.  Defaults to `True` (source
comment: some devices have no learn button); for BS1 and BS4 it is the
negation of documentation bit `DB0.BIT_3 = -4` of `_bit_data`. -/
def learn (p : Packet) : Bool :=
  if p.rorg = RORG.BS1 then !(bitFromEnd p.bit_data 4)
  else if p.rorg = RORG.BS4 then !(bitFromEnd p.bit_data 4)
  else true

/-- `ResponsePacket.parse`: `self.response_data = self.data[1:]`. -/
def response_data (p : Packet) : List Nat := p.data.drop 1

/-- `Packet.create` (the spec's `create_telegram`), for
`packet_type = PACKET.RADIO_ERP1`: `None` embeds the source's `ValueError`
for an unsupported RORG or a malformed sender / destination; otherwise the
source's layout `data = [rorg] ++ payload ++ sender ++ [status]`,
`optional = [3] ++ destination ++ [0xFF] ++ [0]`.  The payload region is
`[0]`/`[0,0,0,0]`/`[0]*profile.bits` written through `set_eep` (the EEP
XML catalogue, external data) and, for non-learn BS1/BS4, or-ed with the
learn bit; `payload` here is that region after those writes, and `status`
the final status byte (`packet.data[-1] = packet.status`). -/
def create (rorg : Nat) (payload sender destination : List Nat)
    (status : Nat) : Option Packet :=
  if rorg ∉ [RORG.RPS, RORG.BS1, RORG.BS4, RORG.VLD, RORG.MSC] then none
  else if destination.length ≠ 4 then none
  else if sender.length ≠ 4 then none
  else some ⟨1, [rorg] ++ payload ++ sender ++ [status],
    [3] ++ destination ++ [0xFF] ++ [0]⟩

end Packet

namespace Packet

/-- `UTETeachInPacket.create_response_packet`: build the UTE teach-in
response.  `response` is the two response bits, most significant first (the
source's `TEACHIN_ACCEPTED = [False, True]`, `DELETE_ACCEPTED = [True,
False]`, …); the control byte packs `[True, False] ++ response ++ [False,
False, False, True]` (bit7 bidirectional, bits 4..5 the response code, bit0
the command identifier); data bytes 2..7 are copied from the request,
followed by the responder's `sender_id` and a zero status byte; the optional
part addresses the response to the request's sender. -/
def create_response_packet (p : Packet) (sender_id : List Nat)
    (response : List Bool) : Packet :=
  ⟨1,
    [p.rorg] ++ [from_bitarray ([true, false] ++ response ++ [false, false, false, true])]
      ++ (p.data.drop 2).take 6 ++ sender_id ++ [0],
    [0x03] ++ p.sender ++ [0xFF, 0x00]⟩

end Packet

/-! ## Bit utilities (`src/enocean/utils.py`)

The two byte-array accessors are embedded for in-range arguments
(`1 ≤ num_bits` and `start_bit + num_bits ≤ 8 * len(data)`, the claims'
"lying within the buffer"); all the subtractions below are then exact, so
`Nat` truncated subtraction agrees with the source's Python ints. -/

/-- `get_bits_from_bytearray(data, start_bit, num_bits)`.  The byte loop of
the source runs `i` from `start_byte` down to `end_byte` (down to byte 0
when `end_byte == 0`), seeding `result` with the first byte and folding each
further byte in as `result = (data[i] << 8) | result` — note the fixed
shift of 8, faithful to the source.  Finally the result is shifted right by
the bit offset within the start byte and masked to `num_bits`. -/
def get_bits_from_bytearray (data : List Nat) (start_bit num_bits : Nat) : Nat :=
  let L := data.length
  -- reversed_index_bit = len(data) * 8 - start_bit; physical start
  let pStart := L * 8 - start_bit - num_bits
  let start_byte := (L - 1) - pStart / 8
  let end_byte := (L - 1) - (pStart + num_bits - 1) / 8
  -- the loop visits data[start_byte], data[start_byte - 1], …, data[end_byte]
  let window := ((List.range' end_byte (start_byte + 1 - end_byte)).map
    (fun i => data.getD i 0)).reverse
  let result := (window.foldl (fun acc b =>
    match acc with
    | none => some b
    | some r => some ((b <<< 8) ||| r)) none).getD 0
  (result >>> (pStart % 8)) &&& ((1 <<< num_bits) - 1)

/-- The two `ValueError`s of `set_bits_in_bytearray`. -/
inductive SetBitsError
  | valueTooLarge
  | positionsOutOfRange
deriving DecidableEq, Repr

/-- The multi-byte write loop of `set_bits_in_bytearray`: chunk the value
into byte-aligned slices, least significant first, and or each into its
byte.  `data[i] & ~mask` is embedded as `data[i] &&& (255 ^^^ mask)`, equal
to Python's two's-complement `&` for byte-valued entries (the masks involved
are below 256). -/
def set_bits_loop (data : List Nat) (L : Nat) : Nat → Nat → Nat → Nat → Nat → List Nat
  | 0, _, _, _, _ => data
  | _, 0, _, _, _ => data
  | fuel + 1, remaining + 1, cur, valuePos, value =>
    -- each iteration writes `min (8 - cur % 8) remaining ≥ 1` bits, so the
    -- loop runs at most `remaining` times; `fuel` (seeded with `remaining`)
    -- makes that bound the structural recursion measure
    let byteIndex := (L - 1) - cur / 8
    let bitInByte := cur % 8
    let bitsThisByte := min (8 - bitInByte) (remaining + 1)
    let mask := ((1 <<< bitsThisByte) - 1) <<< bitInByte
    let bitsValue := (value >>> valuePos) &&& ((1 <<< bitsThisByte) - 1)
    set_bits_loop
      (data.set byteIndex
        ((data.getD byteIndex 0 &&& (255 ^^^ mask)) ||| ((bitsValue <<< bitInByte) &&& mask)))
      L fuel (remaining + 1 - bitsThisByte) (cur + bitsThisByte)
      (valuePos + bitsThisByte) value

/-- `set_bits_in_bytearray(data, start_bit, num_bits, value)`: fail if the
value exceeds `2^num_bits - 1` or the byte positions fall outside the
buffer; write through the single-byte fast path when start and end byte
coincide, else through the chunked loop. -/
def set_bits_in_bytearray (data : List Nat) (start_bit num_bits value : Nat) :
    Except SetBitsError (List Nat) :=
  if value > (1 <<< num_bits) - 1 then Except.error SetBitsError.valueTooLarge
  else
    let L := data.length
    let pStart := L * 8 - start_bit - num_bits
    let start_byte := (L - 1) - pStart / 8
    let end_byte := (L - 1) - (pStart + num_bits - 1) / 8
    if start_byte ≥ L ∨ end_byte ≥ L then Except.error SetBitsError.positionsOutOfRange
    else if start_byte = end_byte then
      let bitInByte := pStart % 8
      let mask := ((1 <<< num_bits) - 1) <<< bitInByte
      Except.ok (data.set start_byte
        ((data.getD start_byte 0 &&& (255 ^^^ mask)) ||| ((value <<< bitInByte) &&& mask)))
    else Except.ok (set_bits_loop data L num_bits num_bits pStart 0 value)

/-- `get_bits_from_byte(byte, offset, num_bits=1)`. -/
def get_bits_from_byte (b : Nat) (offset : Nat) (num_bits : Nat := 1) : Nat :=
  (b >>> offset) &&& ((1 <<< num_bits) - 1)

/-- `set_bits_to_byte(byte, offset, value, num_bits=1)` (`byte & ~mask`
embedded as `&&& (255 ^^^ mask)` as above). -/
def set_bits_to_byte (b : Nat) (offset value : Nat) (num_bits : Nat := 1) : Nat :=
  let mask := ((1 <<< num_bits) - 1) <<< offset
  (b &&& (255 ^^^ mask)) ||| ((value <<< offset) &&& mask)

/-! ## The EEP profile engine (`src/enocean/protocol/eep.py`) -/

/-- A Python value as it flows through the profile engine
(`None` / int / float / str / bool). -/
inductive PyVal
  | none
  | int (n : ℤ)
  | float (q : ℚ)
  | str (s : String)
  | bool (b : Bool)
deriving DecidableEq, Repr

namespace PyVal

/-- Python truthiness of the values above (`None`, `0`, `0.0`, `""` and
`False` are falsy). -/
def truthy : PyVal → Bool
  | .none => false
  | .int n => decide (n ≠ 0)
  | .float q => decide (q ≠ 0)
  | .str s => decide (s ≠ "")
  | .bool b => b

/-- `float(x)` on numeric values.  Numeric strings are not needed by any
claim and fail here like non-numeric ones (`ValueError`). -/
def toFloat : PyVal → Option ℚ
  | .int n => some (n : ℚ)
  | .float q => some q
  | .bool b => some (cond b 1 0)
  | _ => Option.none

/-- Python `*` on the numeric values: int stays int, anything touching a
float becomes float, bools count as 0/1; other operand kinds (not needed by
the claims) are a `TypeError`. -/
def mul : PyVal → PyVal → Option PyVal
  | .int a, .int b => some (.int (a * b))
  | .int a, .float b => some (.float ((a : ℚ) * b))
  | .float a, .int b => some (.float (a * (b : ℚ)))
  | .float a, .float b => some (.float (a * b))
  | .bool a, .int b => some (.int (cond a 1 0 * b))
  | .int a, .bool b => some (.int (a * cond b 1 0))
  | .bool a, .float b => some (.float (cond a 1 0 * b))
  | .float a, .bool b => some (.float (a * cond b 1 0))
  | .bool a, .bool b => some (.int (cond a 1 0 * cond b 1 0))
  | _, _ => Option.none

end PyVal

/-- `ProfileField`: a decoded field record.  `stored_value` is the source
attribute `_value` — the stored decoded value (`__init__` argument `value`,
default `None`; a leading-underscore field name trips the Lean parser,
hence the name) — and `raw_value` the raw unscaled integer. -/
structure ProfileField where
  shortcut : String
  raw_value : Nat
  description : String := ""
  stored_value : PyVal := PyVal.none
  unit : PyVal := PyVal.str ""
  status : Bool := false
deriving DecidableEq, Repr

/-- The `ProfileField.value` property: the stored decoded value when it is
truthy, the raw value otherwise. -/
def ProfileField.value (f : ProfileField) : PyVal :=
  if f.stored_value.truthy then f.stored_value else PyVal.int f.raw_value

/-- Python's `round` to an integer: nearest, ties to the even integer.
(The source rounds Python floats; the claims' numbers are exact in both
binary and decimal, where the two agree.) -/
def pyRoundInt (q : ℚ) : ℤ :=
  if q - ⌊q⌋ < 1/2 then ⌊q⌋
  else if 1/2 < q - ⌊q⌋ then ⌊q⌋ + 1
  else if ⌊q⌋ % 2 = 0 then ⌊q⌋ else ⌊q⌋ + 1

/-- Python's `round(x, 3)` (`DataValue.ROUNDING = 3`). -/
def round3 (q : ℚ) : ℚ := (pyRoundInt (q * 1000) : ℚ) / 1000

/-- Python's `int(x)` on a float: truncation toward zero. -/
def pyInt (q : ℚ) : ℤ := if q < 0 then ⌈q⌉ else ⌊q⌋

/-- `DataValue`: a linearly scaled numeric field — `offset`/`size` locate
the raw bits, `<range>`/`<scale>` give the linear map.  `unit` is the
element's unit attribute, mutated to the decoded unit value during global
processing (`get_values`). -/
structure DataValue where
  shortcut : String
  description : String := ""
  offset : Nat
  size : Nat
  unit : PyVal := PyVal.str ""
  range_min : ℚ
  range_max : ℚ
  scale_min : ℚ
  scale_max : ℚ
deriving DecidableEq, Repr

namespace DataValue

/-- The `__init__` multiplier `(scale_max - scale_min) / (range_max -
range_min)`, or 1 when the division fails (`ZeroDivisionError`). -/
def multiplier (d : DataValue) : ℚ :=
  if d.range_max - d.range_min = 0 then 1
  else (d.scale_max - d.scale_min) / (d.range_max - d.range_min)

/-- `process_value`: `round(multiplier * (val - range_min) + scale_min, 3)`
(p8 of the EEP profile documentation). -/
def process_value (d : DataValue) (val : ℚ) : ℚ :=
  round3 (d.multiplier * (val - d.range_min) + d.scale_min)

/-- `parse_raw` (via `BaseDataElt`): the raw bits at offset/size. -/
def parse_raw (d : DataValue) (user_payload : List Nat) : Nat :=
  get_bits_from_bytearray user_payload d.offset d.size

/-- `DataValue.parse`: the raw value and the scaled value. -/
def parse (d : DataValue) (user_payload : List Nat) : ProfileField :=
  { shortcut := d.shortcut, raw_value := d.parse_raw user_payload,
    description := d.description,
    stored_value := PyVal.float (d.process_value (d.parse_raw user_payload)),
    unit := d.unit }

/-- `DataValue.set_value`: derive the raw value of `data` — NOTE the source
applies `process_value`, the forward range→scale map, to the value being
encoded — truncate it to int and pack it (`_set_raw`).  The truncation is
non-negative on every claim input; negative encodings are outside the
claims. -/
def set_value (d : DataValue) (data : ℚ) (bitarray : List Nat) :
    Except SetBitsError (List Nat) :=
  set_bits_in_bytearray bitarray d.offset d.size (pyInt (d.process_value data)).toNat

end DataValue

/-- `DataStatus`: one bit of the status byte. -/
structure DataStatus where
  shortcut : String
  description : String := ""
  offset : Nat
  unit : PyVal := PyVal.str ""
deriving DecidableEq, Repr

/-- `DataStatus.parse`: the bit at `offset` of the status byte as a boolean
field. -/
def DataStatus.parse (s : DataStatus) (status : Nat) : ProfileField :=
  { shortcut := s.shortcut, raw_value := get_bits_from_byte s.offset status,
    description := s.description,
    stored_value := PyVal.bool (decide (get_bits_from_byte status s.offset ≠ 0)),
    unit := s.unit, status := true }

/-- `DataEnumItem`: a discrete `<item value description>`. -/
structure DataEnumItem where
  value : Nat
  description : String := ""
deriving DecidableEq, Repr

/-- `DataEnumItem.parse`: the item's description. -/
def DataEnumItem.parse (i : DataEnumItem) : PyVal := PyVal.str i.description

/-- `DataEnumRangeItem`: a `<rangeitem>`.  With plain `start`/`end`
attributes the multiplier is the Python int 1; with nested
`<range>`/`<scale>` the bounds are the scale bounds and the multiplier the
float `(scale_max - scale_min) / (range_max - range_min)`. -/
structure DataEnumRangeItem where
  description : String := ""
  start : ℚ
  stop : ℚ
  multiplier : PyVal := PyVal.int 1
deriving DecidableEq, Repr

/-- `DataEnumRangeItem.is_in`. -/
def DataEnumRangeItem.is_in (r : DataEnumRangeItem) (v : ℚ) : Bool :=
  decide (r.start ≤ v) && decide (v ≤ r.stop)

/-- `DataEnumRangeItem.parse`: `val * multiplier`. -/
def DataEnumRangeItem.parse (r : DataEnumRangeItem) (val : Nat) : Option PyVal :=
  PyVal.mul (PyVal.int val) r.multiplier

/-- `DataEnum`: discrete items plus range items. -/
structure DataEnum where
  shortcut : String
  description : String := ""
  offset : Nat
  size : Nat
  unit : PyVal := PyVal.str ""
  items : List DataEnumItem
  range_items : List DataEnumRangeItem
deriving DecidableEq, Repr

namespace DataEnum

/-- `DataEnum.get(val)`: the dict lookup by value, then the first range
item containing the value. -/
def get (e : DataEnum) (val : Nat) : Option (DataEnumItem ⊕ DataEnumRangeItem) :=
  match e.items.find? (fun i => i.value == val) with
  | some i => some (Sum.inl i)
  | Option.none => (e.range_items.find? (fun r => r.is_in (val : ℚ))).map Sum.inr

/-- `DataEnum.parse`: raw bits, then the matching item's decoded value —
the description string for a discrete item, `raw * multiplier` for a range
item.  `none` embeds the source's crash on a raw value no item covers
(`item.parse` on `None`, an `AttributeError`). -/
def parse (e : DataEnum) (user_payload : List Nat) : Option ProfileField :=
  let raw := get_bits_from_bytearray user_payload e.offset e.size
  match e.get raw with
  | some (Sum.inl i) =>
    some { shortcut := e.shortcut, raw_value := raw, description := e.description,
           stored_value := i.parse, unit := e.unit }
  | some (Sum.inr r) =>
    (r.parse raw).map fun v =>
      { shortcut := e.shortcut, raw_value := raw, description := e.description,
        stored_value := v, unit := e.unit }
  | Option.none => Option.none

end DataEnum

/-- The `SpecificShortcut` strings the engine treats specially. -/
def SHORTCUT_UNIT : String := "UN"
def SHORTCUT_MULTIPLIER : String := "SCM"
def SHORTCUT_DIVISOR : String := "DIV"
def SHORTCUT_COMMAND : String := "CMD"
def SHORTCUT_HUMIDITY_AVAILABILITY : String := "HSN"
def SHORTCUT_TEMPERATURE_AVAILABILITY : String := "TSN"
def SHORTCUT_HUMIDITY : String := "HUM"
def SHORTCUT_TEMPERATURE : String := "TMP"

/-- `AVAILABILITY_FIELD_MAPPING`. -/
def AVAILABILITY_FIELD_MAPPING : List (String × String) :=
  [(SHORTCUT_HUMIDITY_AVAILABILITY, SHORTCUT_HUMIDITY),
   (SHORTCUT_TEMPERATURE_AVAILABILITY, SHORTCUT_TEMPERATURE)]

/-- One `<status>` / `<value>` / `<enum>` element of a `<data>` block. -/
inductive DataElt
  | status (d : DataStatus)
  | value (d : DataValue)
  | enum (d : DataEnum)
deriving DecidableEq, Repr

namespace DataElt

def shortcut : DataElt → String
  | .status d => d.shortcut
  | .value d => d.shortcut
  | .enum d => d.shortcut

/-- The parse dispatch of the element kinds (status elements read the
status byte, the others the payload). -/
def parse (e : DataElt) (payload : List Nat) (st : Nat) : Option ProfileField :=
  match e with
  | .status d => some (d.parse st)
  | .value d => some (d.parse payload)
  | .enum d => d.parse payload

/-- Membership in `_operator_fields` (`__init__`: shortcut SCM or DIV). -/
def is_operator_field (e : DataElt) : Bool :=
  e.shortcut == SHORTCUT_MULTIPLIER || e.shortcut == SHORTCUT_DIVISOR

/-- Membership in `_unit_fields`. -/
def is_unit_field (e : DataElt) : Bool := e.shortcut == SHORTCUT_UNIT

/-- Membership in `_availability_fields`. -/
def is_availability_field (e : DataElt) : Bool :=
  e.shortcut == SHORTCUT_TEMPERATURE_AVAILABILITY ||
    e.shortcut == SHORTCUT_HUMIDITY_AVAILABILITY

/-- Membership in `_data_value` (`__init__`: the element's tag is
`value`, whatever its shortcut). -/
def is_value_elt : DataElt → Bool
  | .value _ => true
  | _ => false

end DataElt

/-- `ProfileData`: the ordered field list of one `<data>` block.  The
source's derived lists (`_data_value`, `_operator_fields`, `_unit_fields`,
`_availability_fields`) hold the same objects as `items`; they are embedded
as the index lists below, which also stand in for the object identities the
source's `bypass_list` tracks.  `_data_value` is a Python `set`; its
iteration order is unspecified in Python and is the `items` order here. -/
structure ProfileData where
  items : List DataElt
deriving DecidableEq, Repr

namespace ProfileData

/-- Indices of `_operator_fields` members. -/
def operator_indices (g : ProfileData) : List Nat :=
  (g.items.enum.filter (fun p => p.2.is_operator_field)).map Prod.fst

/-- Indices of `_unit_fields` members. -/
def unit_indices (g : ProfileData) : List Nat :=
  (g.items.enum.filter (fun p => p.2.is_unit_field)).map Prod.fst

/-- Indices of `_data_value` members. -/
def value_indices (g : ProfileData) : List Nat :=
  (g.items.enum.filter (fun p => p.2.is_value_elt)).map Prod.fst

/-- Indices of `_availability_fields` members. -/
def availability_indices (g : ProfileData) : List Nat :=
  (g.items.enum.filter (fun p => p.2.is_availability_field)).map Prod.fst

/-- `has_value`. -/
def has_value (g : ProfileData) : Bool := !g.value_indices.isEmpty

/-- `has_global_operation`: a value field is present and there is exactly
one operator field or exactly one unit field. -/
def has_global_operation (g : ProfileData) : Bool :=
  g.has_value && (g.operator_indices.length == 1 || g.unit_indices.length == 1)

end ProfileData

/-- The availability-suppression pass of `get_values`: walk the
availability flags; for a flag whose shortcut maps to a metric and whose
raw value is 0, add the first matching metric value field and the flag
itself to the bypass list.  A missing metric field (`IndexError`) or a flag
that fails to parse (swallowed by the source's bare `except`) aborts the
whole pass, keeping the bypasses collected so far. -/
def availability_bypass_go (g : ProfileData) (payload : List Nat) (st : Nat) :
    List Nat → List Nat → List Nat
  | [], acc => acc
  | idx :: rest, acc =>
    match g.items.get? idx with
    | Option.none => acc
    | some elt =>
      match elt.parse payload st with
      | Option.none => acc
      | some flag =>
        match AVAILABILITY_FIELD_MAPPING.find? (fun m => m.1 == flag.shortcut) with
        | Option.none => availability_bypass_go g payload st rest acc
        | some m =>
          if flag.raw_value = 0 then
            match g.value_indices.find?
                (fun i => (g.items.get? i).map DataElt.shortcut == some m.2) with
            | Option.none => acc
            | some mi => availability_bypass_go g payload st rest (acc ++ [mi, idx])
          else availability_bypass_go g payload st rest acc

/-- The availability pass over all availability flags. -/
def availability_bypass (g : ProfileData) (payload : List Nat) (st : Nat) : List Nat :=
  availability_bypass_go g payload st g.availability_indices []

/-- `TelegramFunctionGroup`: a profile-data block plus the resolved command
item (`command_item`), when the profile declares commands. -/
structure TelegramFunctionGroup where
  profile_data : ProfileData
  command_item : Option DataEnumItem := Option.none
deriving DecidableEq, Repr

namespace TelegramFunctionGroup

/-- The factor of the global operation: parse the first operator field when
present; `1 / float(value)` for a divisor (`none` embeds the
`ZeroDivisionError`), `float(value)` for a multiplier.  Returns the factor
and the operator's bypass entry. -/
def global_factor (g : ProfileData) (payload : List Nat) (st : Nat) :
    Option (PyVal × List Nat) :=
  match g.operator_indices.head? with
  | Option.none => some (PyVal.int 1, [])
  | some oi => do
    let elt ← g.items.get? oi
    let operatorField ← elt.parse payload st
    if operatorField.shortcut = SHORTCUT_DIVISOR then do
      let q ← operatorField.value.toFloat
      if q = 0 then Option.none
      else some (PyVal.float (1 / q), [oi])
    else if operatorField.shortcut = SHORTCUT_MULTIPLIER then do
      let q ← operatorField.value.toFloat
      some (PyVal.float q, [oi])
    else some (PyVal.int 1, [oi])

/-- The unit of the global operation: the decoded value of the first unit
field when present, else `None`. -/
def global_unit (g : ProfileData) (payload : List Nat) (st : Nat) : Option PyVal :=
  match g.unit_indices.head? with
  | Option.none => some PyVal.none
  | some ui => do
    let elt ← g.items.get? ui
    let u ← elt.parse payload st
    some u.value

/-- The final loop of `get_values` over `(index, element)` pairs: skip
bypassed entries; a `CMD` element emits the synthesized command field (a
missing `command_item` is the source's `AttributeError`); every other
element is parsed as per its kind. -/
def get_values_rest (fg : TelegramFunctionGroup) (payload : List Nat) (st : Nat)
    (bypass : List Nat) : List (Nat × DataElt) → Option (List ProfileField)
  | [] => some []
  | (idx, elt) :: rest =>
    if idx ∈ bypass then get_values_rest fg payload st bypass rest
    else if elt.shortcut = SHORTCUT_COMMAND then do
      let ci ← fg.command_item
      let tail ← get_values_rest fg payload st bypass rest
      some ({ shortcut := SHORTCUT_COMMAND, raw_value := ci.value,
              description := "Command identifier",
              stored_value := PyVal.str ci.description } :: tail)
    else do
      let f ← elt.parse payload st
      let tail ← get_values_rest fg payload st bypass rest
      some (f :: tail)

/-- `TelegramFunctionGroup.get_values`: decode the payload.  With
`global_process` and a group that `has_global_operation`: compute the
factor and unit, then each value field is parsed, its unit replaced by the
decoded unit, and its value multiplied by the factor (`v.value = v.value *
factor` — the truthiness-guarded `value` accessor times the factor, written
back into `stored_value`); the operator and the value fields are bypassed in the
final loop (the unit field is not).  Then the availability pass extends the
bypass list, and the final loop emits every remaining field in `items`
order.  `none` embeds the source's uncaught exceptions (unmatched enum
value, `float()` on a non-number, division by zero, missing command
item). -/
def get_values (fg : TelegramFunctionGroup) (payload : List Nat) (st : Nat)
    (global_process : Bool := true) : Option (List ProfileField) := do
  let g := fg.profile_data
  let (output1, bypass1) ←
    if global_process && g.has_global_operation then do
      let (factor, bypassOp) ← global_factor g payload st
      let unitVal ← global_unit g payload st
      let vals ← g.value_indices.mapM (fun vi => do
        let elt ← g.items.get? vi
        let f ← elt.parse payload st
        let f := { f with unit := unitVal }
        let newv ← PyVal.mul f.value factor
        pure { f with stored_value := newv })
      pure (vals, bypassOp ++ g.value_indices)
    else pure ([], [])
  let bypass2 :=
    if global_process && !g.availability_indices.isEmpty then
      availability_bypass g payload st
    else []
  let restFields ← get_values_rest fg payload st (bypass1 ++ bypass2) g.items.enum
  pure (output1 ++ restFields)

end TelegramFunctionGroup

/-- A divisor field whose `<rangeitem>` carries its own range→scale map
(range 0..10, scale 0..20, so multiplier 2): the engine decodes raw 2 to
the value 4. -/
def divisorScaledExample : DataEnum :=
  { shortcut := "DIV", offset := 0, size := 8, items := [],
    range_items := [{ start := 0, stop := 20, multiplier := PyVal.float 2 }] }

/-- A unit field decoding raw 0 to the string m/s. -/
def unitFieldExample : DataEnum :=
  { shortcut := "UN", offset := 8, size := 8,
    items := [{ value := 0, description := "m/s" }], range_items := [] }

/-- A value field with the identity range→scale map on 0..255. -/
def valueFieldExample : DataValue :=
  { shortcut := "TMP", offset := 16, size := 8,
    range_min := 0, range_max := 255, scale_min := 0, scale_max := 255 }

/-! ## Signal telegrams (`src/enocean/protocol/signal.py`) -/

/-- `SignalTelegramDefinition` header data: message id, name, whether the
message carries payload to decode.  The per-MID `decode` bodies (which fill
the `fields` dict) are not touched by any claim and are omitted. -/
structure SignalTelegramDefinition where
  mid : Nat
  name : String
  optional_data : Bool
deriving DecidableEq, Repr

/-- The `SignalDefinitions` table: the known MIDs (0x11 is commented out in
the source). -/
def SignalDefinitions : List SignalTelegramDefinition :=
  [⟨0x06, "Energy status of device", true⟩,
   ⟨0x07, "Revision of device", true⟩,
   ⟨0x08, "Heartbeat", false⟩,
   ⟨0x0A, "RX-channel quality", true⟩,
   ⟨0x10, "Backup battery status", true⟩,
   ⟨0x12, "Product ID", true⟩,
   ⟨0x13, "Date and Time", true⟩]

/-- The signal decode failure of the spec's error taxonomy. -/
inductive SignalError
  | signalNotSupported
deriving DecidableEq, Repr

/-- Modelled from the spec: the dispatch from a SIGNAL (0xD0) telegram's
first payload byte (MID) to its definition — "Unknown MIDs fail with
`SignalNotSupported`" (spec §4.7); the caller of `SignalDefinitions` is not
under `src/`.  On a known MID the found definition decodes the telegram; on
an unknown MID the error carries no decoded field set. -/
def lookup_signal_definition (mid : Nat) :
    Except SignalError SignalTelegramDefinition :=
  match SignalDefinitions.find? (fun d => d.mid == mid) with
  | some d => Except.ok d
  | Option.none => Except.error SignalError.signalNotSupported

/-! ## The controller scanner (`src/enocean/controller/basecontroller.py`) -/

/-! The common-command codes used by the controller
(`constants.CommandCode`). -/

namespace CommandCode

def CO_RD_VERSION : Nat := 0x03
def CO_RD_SYS_LOG : Nat := 0x04
def CO_RD_IDBASE : Nat := 0x08
def CO_RD_REPEATER : Nat := 0x0A
def CO_GET_FREQUENCY_INFO : Nat := 0x25
def CO_GET_NOISETHRESHOLD : Nat := 0x33

end CommandCode

/-- `constants.RESPONSE_FREQUENCY_FREQUENCY`. -/
def RESPONSE_FREQUENCY_FREQUENCY : List (Nat × String) :=
  [(0, "315Mhz"), (1, "868.3Mhz"), (2, "902.87Mhz"), (3, "925Mhz"),
   (4, "928Mhz"), (32, "2.4 Ghz")]

/-- `constants.RESPONSE_FREQUENCY_PROTOCOL`. -/
def RESPONSE_FREQUENCY_PROTOCOL : List (Nat × String) :=
  [(0, "ERP1"), (1, "ERP2"), (16, "802.15.4"), (48, "Long Range")]

/-- `constants.RESPONSE_REPEATER_MODE`. -/
def RESPONSE_REPEATER_MODE : List (Nat × String) :=
  [(0, "OFF"), (1, "ON"), (2, "SELECTIVE")]

/-- `constants.RESPONSE_REPEATER_LEVEL`. -/
def RESPONSE_REPEATER_LEVEL : List (Nat × String) :=
  [(0, "OFF"), (1, "1-level"), (2, "2-level")]

/-- A Python dict lookup `table[key]` over the response tables
(`none` is the `KeyError`). -/
def table_get (t : List (Nat × String)) (k : Nat) : Option String :=
  (t.find? (fun e => e.1 == k)).map Prod.snd

/-- `".".join(str(b) for b in bs)`. -/
def joinDots (bs : List Nat) : String :=
  String.intercalate "." (bs.map toString)

/-- `"".join(chr(c) for c in cs if c)`. -/
def joinChars (cs : List Nat) : String :=
  String.mk ((cs.filter (fun c => c ≠ 0)).map Char.ofNat)

/-- The `BaseController` state touched by the claims: the input buffer, the
next-sync index, the CRC error counter, the receive / transmit queues, the
command-code FIFO, the teach-in flag and the adapter identity fields
written by the common-command response parser (`__init__`). -/
structure CState where
  buffer : List Nat := []
  next_sync_byte : Nat := 1
  crc_errors : Nat := 0
  receive : List Packet := []
  transmit : List Packet := []
  command_queue : List Nat := []
  teach_in : Bool := true
  chip_id : Option (List Nat) := Option.none
  base_id : Option (List Nat) := Option.none
  app_version : Option String := Option.none
  api_version : Option String := Option.none
  chip_version : Option String := Option.none
  app_description : Option String := Option.none
  frequency : Option String := Option.none
  protocol : Option String := Option.none
  repeater_mode : Option String := Option.none
  repeater_level : Option String := Option.none
deriving DecidableEq, Repr

/-- `BaseController.parse_common_command_response`: pop the oldest
outstanding command code and fill the adapter fields its response carries.
The boolean is false when the source would raise — `pop(0)` on an empty
queue, `response_data[i]` past the end, or a response-table `KeyError` —
with the state mutations made before the raise kept (the pop in
particular). -/
def parse_common_command_response (s : CState) (p : Packet) : CState × Bool :=
  match s.command_queue with
  | [] => (s, false)
  | cid :: rest =>
    let s := { s with command_queue := rest }
    let rd := p.response_data
    if cid = CommandCode.CO_RD_VERSION then
      ({ s with app_version := some (joinDots (rd.take 4)),
                api_version := some (joinDots ((rd.drop 4).take 4)),
                chip_id := some ((rd.drop 8).take 4),
                chip_version := some (joinDots ((rd.drop 12).take 4)),
                app_description := some (joinChars (rd.drop 16)) }, true)
    else if cid = CommandCode.CO_RD_IDBASE then
      -- `self._base_id = packet.response_data` — the whole remaining data
      ({ s with base_id := some rd }, true)
    else if cid = CommandCode.CO_GET_FREQUENCY_INFO then
      match rd.head? with
      | Option.none => (s, false)
      | some b0 =>
        match table_get RESPONSE_FREQUENCY_FREQUENCY b0 with
        | Option.none => (s, false)
        | some fstr =>
          let s := { s with frequency := some fstr }
          match (rd.drop 1).head? with
          | Option.none => (s, false)
          | some b1 =>
            match table_get RESPONSE_FREQUENCY_PROTOCOL b1 with
            | Option.none => (s, false)
            | some pstr => ({ s with protocol := some pstr }, true)
    else if cid = CommandCode.CO_RD_REPEATER then
      match rd.head? with
      | Option.none => (s, false)
      | some b0 =>
        match table_get RESPONSE_REPEATER_MODE b0 with
        | Option.none => (s, false)
        | some mstr =>
          let s := { s with repeater_mode := some mstr }
          match (rd.drop 1).head? with
          | Option.none => (s, false)
          | some b1 =>
            match table_get RESPONSE_REPEATER_LEVEL b1 with
            | Option.none => (s, false)
            | some lstr => ({ s with repeater_level := some lstr }, true)
    else
      -- CO_GET_NOISETHRESHOLD / CO_RD_SYS_LOG / default: log only
      (s, true)

/-- The outcome of one `BaseController.read` call: a parsed and dispatched
packet, a raised `FrameIncompleteError`, a handled `CrcMismatchError`
(counter bumped), or an exception escaping the response dispatch. -/
inductive ReadResult
  | ok (p : Packet)
  | frameIncomplete
  | crcMismatch
  | dispatchError
deriving DecidableEq, Repr

/-- The error of `Packet.parse_frame`. -/
inductive FrameError
  | crcMismatch
deriving DecidableEq, Repr

/-- Modelled from the spec: `Packet.parse_frame(frame)` — imported by
`basecontroller.py` but not under `src/`.  The caller has already validated
the header CRC and the length; per spec §4.2, the data CRC-8 over
data+optional is checked and the typed packet sliced out (same layout as
`parse_msg`: `data_len = frame[1]*256 + frame[2]`, `opt_len = frame[3]`,
`data = frame[6 : 6+data_len]`, `optional = frame[6+data_len :
6+data_len+opt_len]`, data CRC at `frame[6+data_len+opt_len]`). -/
def Packet.parse_frame (frame : List Nat) : Except FrameError Packet :=
  if frame.getD (6 + ((frame.getD 1 0) * 256 + frame.getD 2 0) + frame.getD 3 0) 0 ≠
      crc8_calc ((frame.drop 6).take ((frame.getD 1 0) * 256 + frame.getD 2 0) ++
        (frame.drop (6 + ((frame.getD 1 0) * 256 + frame.getD 2 0))).take (frame.getD 3 0)) then
    Except.error FrameError.crcMismatch
  else
    Except.ok ⟨frame.getD 4 0,
      (frame.drop 6).take ((frame.getD 1 0) * 256 + frame.getD 2 0),
      (frame.drop (6 + ((frame.getD 1 0) * 256 + frame.getD 2 0))).take (frame.getD 3 0)⟩

/-- `bytearray.find(value, start)`: the index of the first occurrence at or
after `start`, or −1. -/
def pyFind (l : List Nat) (v : Nat) (start : Nat) : Int :=
  match (l.drop start).findIdx? (fun b => b == v) with
  | some i => (start + i : Int)
  | Option.none => -1

/-- Python `l[i:]` for a possibly negative index. -/
def pyDropFrom (l : List Nat) (i : Int) : List Nat :=
  if 0 ≤ i then l.drop i.toNat else l.drop (l.length - min l.length i.natAbs)

/-- The UTE teach-in reaction inside `BaseController.read`: on a UTE
telegram with teach-in enabled and a destination other than the
controller's own address, the response packet is built and sent (queued on
`transmit`).  When `chip_id` is unset the source would build the response
with `None` as sender id; that out-of-scope corner is modelled with an
empty sender id. -/
def ute_respond (s : CState) (packet : Packet) : CState :=
  if packet.rorg = RORG.UTE then
    if s.teach_in then
      if s.chip_id ≠ some packet.destination then
        { s with transmit := s.transmit ++
            [packet.create_response_packet (s.chip_id.getD []) [false, true]] }
      else s
    else s
  else s

/-- The packet dispatch at the end of `BaseController.read`: a Radio-ERP1
packet goes to the receive queue (a UTE telegram first triggers the
teach-in response, `ute_respond`); a Response packet with a non-empty
command queue goes to `parse_common_command_response`; an Event packet is
only logged and every other type falls through.  The direction comparison
(`sender == address`) sets only the packet's direction attribute and is
not observable here. -/
def dispatch_packet (s : CState) (packet : Packet) : CState × ReadResult :=
  if packet.packet_type = 1 then
    ({ ute_respond s packet with
        receive := (ute_respond s packet).receive ++ [packet] }, ReadResult.ok packet)
  else if packet.packet_type = 2 ∧ s.command_queue ≠ [] then
    ((parse_common_command_response s packet).1,
      if (parse_common_command_response s packet).2 then ReadResult.ok packet
      else ReadResult.dispatchError)
  else (s, ReadResult.ok packet)

/-- The tail of `BaseController.read` after the header CRC matched:
`packet_len = 7 + data_len + opt_len`; if the buffer is shorter, push
`next_sync_byte` forward by `packet_len` and raise `FrameIncompleteError`;
else slice the frame off the buffer, reset `next_sync_byte` to 1, parse
the frame and dispatch (a data-CRC failure inside `parse_frame` is caught
and counted). -/
def BaseController.read_framed (s : CState) (packetLen : Nat) : CState × ReadResult :=
  if s.buffer.length < packetLen then
    ({ s with next_sync_byte := s.next_sync_byte + packetLen }, ReadResult.frameIncomplete)
  else
    match Packet.parse_frame (s.buffer.take packetLen) with
    | Except.error _ =>
      ({ s with next_sync_byte := 1, buffer := s.buffer.drop packetLen,
                crc_errors := s.crc_errors + 1 }, ReadResult.crcMismatch)
    | Except.ok packet =>
      dispatch_packet
        { s with next_sync_byte := 1, buffer := s.buffer.drop packetLen } packet

/-- `BaseController.read`: read the header at `buffer[1:5]` and its CRC at
`buffer[5]` (whose `IndexError` — a buffer of at most 5 bytes — raises
`FrameIncompleteError`).  On a header CRC match hand over to
`read_framed`; on a mismatch advance the buffer to the next sync byte
found from `next_sync_byte` on (`buffer.find(0x55, next_sync_byte)`, the
Python `buffer[-1:]` corner when none is found included) and count the CRC
error. -/
def BaseController.read (s : CState) : CState × ReadResult :=
  if s.buffer.length ≤ 5 then (s, ReadResult.frameIncomplete)
  else if crc8_calc ((s.buffer.drop 1).take 4) = s.buffer.getD 5 0 then
    BaseController.read_framed s
      (7 + ((s.buffer.getD 1 0) * 256 + s.buffer.getD 2 0) + s.buffer.getD 3 0)
  else
    ({ s with buffer := pyDropFrom s.buffer (pyFind s.buffer 0x55 s.next_sync_byte),
              crc_errors := s.crc_errors + 1 }, ReadResult.crcMismatch)


/-- Reference vectors for the modelled CRC-8: the empty and all-zero inputs
give 0x00, and the header `00 0A 07 01` of the spec's S1 example frame
`55 00 0A 07 01 EB …` gives its recorded header CRC 0xEB — which pins the
model to the ESP3 polynomial, initial value and bit order. -/
theorem crc8_reference_vectors :
    crc8_calc [] = 0x00 ∧ crc8_calc [0x00] = 0x00 ∧
      crc8_calc [0x00, 0x0A, 0x07, 0x01] = 0xEB := by
  refine ⟨rfl, by decide, by decide⟩

/-- Each round keeps the register below 256. -/
theorem crc8Round_lt (c : Nat) : crc8Round c < 256 := by
  unfold crc8Round
  split <;> exact Nat.mod_lt _ (by norm_num)

/-- Absorbing a byte keeps the register below 256. -/
theorem crc8Byte_lt (c b : Nat) : crc8Byte c b < 256 := crc8Round_lt _

/-- The CRC-8 of any byte list is a byte. -/
theorem crc8_calc_lt (data : List Nat) : crc8_calc data < 256 := by
  unfold crc8_calc
  rcases h : data.reverse with _ | ⟨b, rest⟩
  · have : data = [] := by simpa using congrArg List.reverse h
    simp [this]
  · have : data = rest.reverse ++ [b] := by
      have := congrArg List.reverse h
      simpa using this
    rw [this, List.foldl_append]
    exact crc8Byte_lt _ _

/-- A byte or-ed below a value shifted left by eight adds up. -/
theorem lor_shift8 (a b : Nat) (hb : b < 256) : (a <<< 8) ||| b = a * 256 + b := by
  have hb8 : b < 2 ^ 8 := hb
  have h256 : a * 256 + b = 2 ^ 8 * a + b := by ring
  apply Nat.eq_of_testBit_eq
  intro i
  rw [Nat.testBit_lor, Nat.testBit_shiftLeft, h256, Nat.testBit_mul_pow_two_add a hb8 i]
  rcases Nat.lt_or_ge i 8 with hc | hc
  · have hnge : ¬ (i ≥ 8) := by omega
    simp [hc, hnge]
  · have hbf : b.testBit i = false :=
      Nat.testBit_lt_two_pow (lt_of_lt_of_le hb8 (Nat.pow_le_pow_right (by norm_num) hc))
    have hnlt : ¬ (i < 8) := by omega
    simp [hc, hnlt, hbf]

/-- Reassembling a 16-bit length from the two header bytes written by
`Packet.build` gives the length back. -/
theorem hiLo_roundtrip (D : Nat) (h : D < 65536) :
    (((D >>> 8) &&& 0xFF) <<< 8) ||| (D &&& 0xFF) = D := by
  have e1 : (0xFF : Nat) = 2 ^ 8 - 1 := rfl
  rw [e1, Nat.and_pow_two_sub_one_eq_mod, Nat.and_pow_two_sub_one_eq_mod,
    Nat.shiftRight_eq_div_pow]
  have hd : D / 2 ^ 8 % 2 ^ 8 = D / 2 ^ 8 := Nat.mod_eq_of_lt (by omega)
  rw [hd, lor_shift8 _ _ (Nat.mod_lt _ (by norm_num))]
  omega

/-- `Packet.build` written out: sync, the four header bytes, the header CRC,
then data, optional and the data CRC. -/
theorem Packet.build_eq (p : Packet) :
    p.build = [0x55, (p.data.length >>> 8) &&& 0xFF, p.data.length &&& 0xFF,
        p.optional.length, p.packet_type,
        crc8_calc [(p.data.length >>> 8) &&& 0xFF, p.data.length &&& 0xFF,
          p.optional.length, p.packet_type]] ++
      p.data ++ p.optional ++ [crc8_calc (p.data ++ p.optional)] := by
  simp [Packet.build]

/-- Round-trip of the frame codec: parsing the bytes built from any packet
whose data length fits the two-byte length field yields `OK`, an empty
remaining buffer, and the packet itself. -/
theorem Packet.parse_msg_build (p : Packet) (h : p.data.length < 65536) :
    Packet.parse_msg p.build = (ParseResult.OK, [], some p) := by
  obtain ⟨ty, data, opt⟩ := p
  simp only at h
  set D := data.length with hD
  set O := opt.length with hO
  set hi := (D >>> 8) &&& 0xFF with hhi
  set lo := D &&& 0xFF with hlo
  set hc := crc8_calc [hi, lo, O, ty] with hhc
  set dc := crc8_calc (data ++ opt) with hdc
  set L := 0x55 :: hi :: lo :: O :: ty :: hc :: (data ++ opt ++ [dc]) with hL
  have hbuild : Packet.build ⟨ty, data, opt⟩ = L := by
    rw [Packet.build_eq, hL]; simp
  have hLlen : L.length = 7 + D + O := by
    rw [hL]; simp [hD, hO]; omega
  have hmem : (0x55 : Nat) ∈ L := by rw [hL]; exact List.mem_cons_self _ _
  have hidx : L.indexOf 0x55 = 0 := by rw [hL]; exact List.indexOf_cons_self _ _
  have hdataLen : ((L.getD 1 0) <<< 8) ||| L.getD 2 0 = D := by
    rw [hL]
    simp only [List.getD_cons_succ, List.getD_cons_zero]
    exact hiLo_roundtrip D h
  have hoptLen : L.getD 3 0 = O := by
    rw [hL]
    simp only [List.getD_cons_succ, List.getD_cons_zero]
  have hmsg : L.take (6 + D + O + 1) = L := List.take_of_length_le (by omega)
  have hrest : L.drop (6 + D + O + 1) = [] := List.drop_eq_nil_of_le (by omega)
  have hsplit : L = [0x55, hi, lo, O, ty, hc] ++ ((data ++ opt) ++ [dc]) := by
    rw [hL]; simp
  have hgetD5 : L.getD 5 0 = hc := by
    rw [hL]; simp only [List.getD_cons_succ, List.getD_cons_zero]
  have hheader : (L.drop 1).take 4 = [hi, lo, O, ty] := by
    rw [hL]
    rfl
  have hgetDend : L.getD (6 + D + O) 0 = dc := by
    rw [hsplit, List.getD_append_right _ _ _ _ (by simp; omega)]
    have h1 : 6 + D + O - ([0x55, hi, lo, O, ty, hc] : List Nat).length = D + O := by
      simp; omega
    rw [h1, List.getD_append_right _ _ _ _ (by simp [hD, hO])]
    have h2 : D + O - (data ++ opt).length = 0 := by simp [hD, hO]
    rw [h2, List.getD_cons_zero]
  have hdrop6 : L.drop 6 = (data ++ opt) ++ [dc] := by
    rw [hsplit]
    exact List.drop_left' (by simp)
  have hbody : (L.drop 6).take (D + O) = data ++ opt := by
    rw [hdrop6]
    exact List.take_left' (by simp [hD, hO])
  have hgetD4 : L.getD 4 0 = ty := by
    rw [hL]; simp only [List.getD_cons_succ, List.getD_cons_zero]
  have hdata : (L.drop 6).take D = data := by
    rw [hdrop6, List.append_assoc]
    exact List.take_left' hD.symm
  have hopt : (L.drop (6 + D)).take O = opt := by
    have hsplit2 : L = ([0x55, hi, lo, O, ty, hc] ++ data) ++ (opt ++ [dc]) := by
      rw [hL]; simp
    rw [hsplit2, List.drop_left' (by simp [hD]; omega)]
    exact List.take_left' hO.symm
  rw [hbuild]
  unfold Packet.parse_msg
  rw [if_pos hmem, hidx, List.drop_zero]
  unfold Packet.parse_msg_synced
  rw [if_neg (by omega : ¬ (L.length ≤ 3)), hdataLen, hoptLen]
  unfold Packet.parse_msg_framed
  rw [if_neg (by omega : ¬ (L.length < 6 + D + O + 1)), hmsg, hrest]
  rw [if_neg (by rw [hgetD5, hheader, hhc]; exact not_ne_iff.mpr rfl)]
  rw [if_neg (by rw [hgetDend, hbody, hdc]; exact not_ne_iff.mpr rfl)]
  rw [hgetD4, hdata, hopt]

/-- C2: for every packet P constructed via `Packet.create` (the spec's
`create_telegram`) with a supported RORG and then serialised via `build`,
parsing the produced bytes with `Packet.parse_msg` yields OK with an empty
remaining buffer and exactly the packet P — hence its `packet_type`,
`rorg`, `sender`, `destination`, data payload and status equal those of P.
The accessor conjuncts additionally pin the parsed fields to the creation
arguments (for the RORGs whose status is parsed from `data[-1]`, the parsed
status is the created status byte). -/
theorem C2_create_build_parse_roundtrip
    (rorg status : Nat) (payload sender destination : List Nat) (P : Packet)
    (hcreate : Packet.create rorg payload sender destination status = some P)
    (hlen : payload.length < 65530) :
    Packet.parse_msg P.build = (ParseResult.OK, [], some P) ∧
      P.packet_type = 1 ∧ P.rorg = rorg ∧ P.sender = sender ∧
      P.destination = destination ∧ P.payload = payload ∧
      ((rorg = RORG.RPS ∨ rorg = RORG.BS1 ∨ rorg = RORG.BS4) →
        P.status = status) := by
  unfold Packet.create at hcreate
  split_ifs at hcreate with h1 h2 h3
  rw [not_ne_iff] at h2 h3
  have hP : P = ⟨1, [rorg] ++ payload ++ sender ++ [status],
      [3] ++ destination ++ [0xFF] ++ [0]⟩ := by
    exact (Option.some_injective _ hcreate).symm
  have hdl : P.data.length = payload.length + 6 := by
    rw [hP]; simp [h3]
  subst hP
  refine ⟨Packet.parse_msg_build _ (by simp at hdl ⊢; omega), rfl, ?_, ?_, ?_, ?_, ?_⟩
  · simp [Packet.rorg]
  · show ((([rorg] ++ payload ++ sender ++ [status]).drop
        (([rorg] ++ payload ++ sender ++ [status]).length - 5)).take 4) = sender
    have hsplit : [rorg] ++ payload ++ sender ++ [status] =
        ([rorg] ++ payload) ++ (sender ++ [status]) := by simp
    have hν : ([rorg] ++ payload ++ sender ++ [status]).length - 5 =
        ([rorg] ++ payload).length := by
      simp [h3]
    rw [hν, hsplit, List.drop_left]
    exact List.take_left' h3
  · show ((([3] ++ destination ++ [0xFF] ++ [0]).drop 1).take 4) = destination
    have hsplit : [3] ++ destination ++ [0xFF] ++ [0] =
        3 :: (destination ++ ([0xFF] ++ [0])) := by simp
    rw [hsplit, List.drop_one, List.tail_cons]
    exact List.take_left' h2
  · show ((([rorg] ++ payload ++ sender ++ [status]).drop 1).take
        (([rorg] ++ payload ++ sender ++ [status]).length - 6)) = payload
    have hν : ([rorg] ++ payload ++ sender ++ [status]).length - 6 =
        payload.length := by simp [h3]
    have hsplit : [rorg] ++ payload ++ sender ++ [status] =
        rorg :: (payload ++ (sender ++ [status])) := by simp
    rw [hν, hsplit, List.drop_one, List.tail_cons]
    exact List.take_left' rfl
  · intro hR
    unfold Packet.status
    have hr : Packet.rorg ⟨1, [rorg] ++ payload ++ sender ++ [status],
        [3] ++ destination ++ [0xFF] ++ [0]⟩ = rorg := by simp [Packet.rorg]
    rw [hr, if_pos hR]
    show (([rorg] ++ payload ++ sender ++ [status]).getD
        (([rorg] ++ payload ++ sender ++ [status]).length - 1) 0) = status
    have hsplit : [rorg] ++ payload ++ sender ++ [status] =
        ([rorg] ++ payload ++ sender) ++ [status] := by simp
    have hν : ([rorg] ++ payload ++ sender ++ [status]).length - 1 =
        ([rorg] ++ payload ++ sender).length := by simp; omega
    rw [hν, hsplit, List.getD_append_right _ _ _ _ (le_refl _)]
    simp

/-- Witness for C2 at a concrete BS4 telegram. -/
theorem C2_create_build_parse_roundtrip_witness :
    Packet.create RORG.BS4 [0x00, 0x00, 0x00, 0x08] [0xDE, 0xAD, 0xBE, 0xEF]
        [0xFF, 0xFF, 0xFF, 0xFF] 0 =
      some ⟨1, [0xA5, 0x00, 0x00, 0x00, 0x08, 0xDE, 0xAD, 0xBE, 0xEF, 0x00],
        [3, 0xFF, 0xFF, 0xFF, 0xFF, 0xFF, 0x00]⟩ ∧
      Packet.parse_msg
          (Packet.build ⟨1, [0xA5, 0x00, 0x00, 0x00, 0x08, 0xDE, 0xAD, 0xBE, 0xEF, 0x00],
            [3, 0xFF, 0xFF, 0xFF, 0xFF, 0xFF, 0x00]⟩) =
        (ParseResult.OK, [],
          some ⟨1, [0xA5, 0x00, 0x00, 0x00, 0x08, 0xDE, 0xAD, 0xBE, 0xEF, 0x00],
            [3, 0xFF, 0xFF, 0xFF, 0xFF, 0xFF, 0x00]⟩) := by
  constructor
  · decide
  · exact (C2_create_build_parse_roundtrip RORG.BS4 0 [0x00, 0x00, 0x00, 0x08]
      [0xDE, 0xAD, 0xBE, 0xEF] [0xFF, 0xFF, 0xFF, 0xFF] _ (by decide) (by decide)).1

/-- C3 counterexample: the RPS rocker telegram of the spec's own S2 scenario
(data `F6 70 00 29 89 79 30`) parses with `learn = True` — `RadioPacket.parse`
defaults `learn` to `True` and only the BS1/BS4 branches ever change it —
whereas the claim says the learn flag of an RPS packet is false. -/
theorem C3_counterexample_rps_learn :
    ¬ (Packet.learn ⟨1, [0xF6, 0x70, 0x00, 0x29, 0x89, 0x79, 0x30],
        [3, 0xFF, 0xFF, 0xFF, 0xFF, 0xFF, 0]⟩ = false) := by
  decide

/-- C3 (amended): after parsing a Radio-ERP1 packet, the learn flag
satisfies: for BS1, learn = NOT bit3 of payload byte 0; for BS4, learn = NOT
bit3 of payload byte 3; for VLD and RPS packets, learn keeps its default
value True (not false as claimed — the source comments that some devices
have no learn button and defaults the flag to True). -/
theorem C3_learn_flag (b b0 b1 b2 b3 s0 s1 s2 s3 st : Nat)
    (vpayload opt : List Nat) :
    Packet.learn ⟨1, [RORG.BS1, b, s0, s1, s2, s3, st], opt⟩ = !(b.testBit 3) ∧
    Packet.learn ⟨1, [RORG.BS4, b0, b1, b2, b3, s0, s1, s2, s3, st], opt⟩ =
      !(b3.testBit 3) ∧
    Packet.learn ⟨1, RORG.RPS :: vpayload ++ [s0, s1, s2, s3, st], opt⟩ = true ∧
    Packet.learn ⟨1, RORG.VLD :: vpayload ++ [s0, s1, s2, s3, st], opt⟩ = true := by
  refine ⟨?_, ?_, ?_, ?_⟩
  · simp [Packet.learn, Packet.rorg, Packet.bit_data, to_bitarray, byteBits,
      bitFromEnd, RORG.BS1]
  · simp [Packet.learn, Packet.rorg, Packet.bit_data, to_bitarray, byteBits,
      bitFromEnd, RORG.BS1, RORG.BS4]
  · simp [Packet.learn, Packet.rorg, RORG.BS1, RORG.BS4, RORG.RPS]
  · simp [Packet.learn, Packet.rorg, RORG.BS1, RORG.BS4, RORG.VLD]

/-- C4: for every UTE teach-in request (a radio packet with rorg 0xD4 and
the fixed 13-byte UTE data layout) and every response code `c < 4`, the
response packet built by `create_response_packet` has rorg 0xD4, control
byte `0x81 ||| (c <<< 4)`, data bytes 2..7 copied verbatim from the
request, bytes 8..11 the responder's sender address, byte 12 = 0, and the
destination of its optional data equal to the request's sender address. -/
theorem C4_ute_response_packet (p : Packet) (sender_id : List Nat) (c : Nat)
    (hU : p.rorg = RORG.UTE) (hlen : p.data.length = 13)
    (hsid : sender_id.length = 4) (hc : c < 4) :
    (p.create_response_packet sender_id [c.testBit 1, c.testBit 0]).rorg = 0xD4 ∧
    (p.create_response_packet sender_id [c.testBit 1, c.testBit 0]).data.getD 1 0 =
      0x81 ||| (c <<< 4) ∧
    ((p.create_response_packet sender_id [c.testBit 1, c.testBit 0]).data.drop 2).take 6 =
      (p.data.drop 2).take 6 ∧
    ((p.create_response_packet sender_id [c.testBit 1, c.testBit 0]).data.drop 8).take 4 =
      sender_id ∧
    (p.create_response_packet sender_id [c.testBit 1, c.testBit 0]).data.getD 12 0 = 0 ∧
    (p.create_response_packet sender_id [c.testBit 1, c.testBit 0]).destination =
      p.sender := by
  have hmid : ((p.data.drop 2).take 6).length = 6 := by
    simp [hlen]
  have hsender : p.sender.length = 4 := by
    unfold Packet.sender
    simp [hlen]
  set mid6 := (p.data.drop 2).take 6 with hmid6
  set ctrl := from_bitarray ([true, false] ++ [c.testBit 1, c.testBit 0] ++
    [false, false, false, true]) with hctrl
  have hresp : p.create_response_packet sender_id [c.testBit 1, c.testBit 0] =
      ⟨1, p.rorg :: ctrl :: (mid6 ++ sender_id ++ [0]),
        0x03 :: (p.sender ++ [0xFF, 0x00])⟩ := by
    unfold Packet.create_response_packet
    simp [hctrl, hmid6]
  rw [hresp]
  refine ⟨?_, ?_, ?_, ?_, ?_, ?_⟩
  · show (p.rorg :: ctrl :: (mid6 ++ sender_id ++ [0])).getD 0 0 = 0xD4
    rw [List.getD_cons_zero, hU]
    rfl
  · show (p.rorg :: ctrl :: (mid6 ++ sender_id ++ [0])).getD 1 0 = 0x81 ||| (c <<< 4)
    rw [List.getD_cons_succ, List.getD_cons_zero, hctrl]
    interval_cases c <;> decide
  · show ((p.rorg :: ctrl :: (mid6 ++ sender_id ++ [0])).drop 2).take 6 = mid6
    have : (p.rorg :: ctrl :: (mid6 ++ sender_id ++ [0])).drop 2 =
        mid6 ++ (sender_id ++ [0]) := by simp
    rw [this]
    exact List.take_left' hmid
  · show ((p.rorg :: ctrl :: (mid6 ++ sender_id ++ [0])).drop 8).take 4 = sender_id
    have : (p.rorg :: ctrl :: (mid6 ++ sender_id ++ [0])).drop 8 =
        (mid6 ++ (sender_id ++ [0])).drop 6 := by simp
    rw [this, List.drop_left' hmid]
    exact List.take_left' hsid
  · show (p.rorg :: ctrl :: (mid6 ++ sender_id ++ [0])).getD 12 0 = 0
    have hS : p.rorg :: ctrl :: (mid6 ++ sender_id ++ [0]) =
        (p.rorg :: ctrl :: (mid6 ++ sender_id)) ++ [0] := by simp
    rw [hS, List.getD_append_right _ _ _ _ (by simp [hmid, hsid])]
    simp [hmid, hsid]
  · show ((0x03 :: (p.sender ++ [0xFF, 0x00])).drop 1).take 4 = p.sender
    rw [List.drop_one, List.tail_cons]
    exact List.take_left' hsender

/-- Witness for C4: the spec's S3 scenario — request data
`D4 A0 FF 01 16 05 02 A5` + sender `01 02 03 04` + status 0, responder
address `DE AD BE EF`, response code 1 (teach-in accepted): the response
control byte is 0x91 and the response is addressed to `01 02 03 04`. -/
theorem C4_ute_response_packet_witness :
    (Packet.create_response_packet
        ⟨1, [0xD4, 0xA0, 0xFF, 0x01, 0x16, 0x05, 0x02, 0xA5, 0x01, 0x02, 0x03, 0x04, 0x00],
          [3, 0xFF, 0xFF, 0xFF, 0xFF, 0xFF, 0]⟩
        [0xDE, 0xAD, 0xBE, 0xEF] [(1 : Nat).testBit 1, (1 : Nat).testBit 0]).data.getD 1 0 =
      0x81 ||| (1 <<< 4) ∧
    (Packet.create_response_packet
        ⟨1, [0xD4, 0xA0, 0xFF, 0x01, 0x16, 0x05, 0x02, 0xA5, 0x01, 0x02, 0x03, 0x04, 0x00],
          [3, 0xFF, 0xFF, 0xFF, 0xFF, 0xFF, 0]⟩
        [0xDE, 0xAD, 0xBE, 0xEF] [(1 : Nat).testBit 1, (1 : Nat).testBit 0]).destination =
      Packet.sender ⟨1, [0xD4, 0xA0, 0xFF, 0x01, 0x16, 0x05, 0x02, 0xA5, 0x01, 0x02, 0x03,
        0x04, 0x00], [3, 0xFF, 0xFF, 0xFF, 0xFF, 0xFF, 0]⟩ := by
  have h := C4_ute_response_packet
    ⟨1, [0xD4, 0xA0, 0xFF, 0x01, 0x16, 0x05, 0x02, 0xA5, 0x01, 0x02, 0x03, 0x04, 0x00],
      [3, 0xFF, 0xFF, 0xFF, 0xFF, 0xFF, 0]⟩
    [0xDE, 0xAD, 0xBE, 0xEF] 1 (by decide) (by decide) (by decide) (by decide)
  exact ⟨h.2.1, h.2.2.2.2.2⟩

/-- C9 (the code at the claim's failing input): writing the 24-bit value
0x010203 at `start_bit = 0` into a three-byte buffer produces the bytes
`[1, 2, 3]` (the writer is correct), but reading the same 24 bits back
returns 0x0303, not 0x010203 — `get_bits_from_bytearray` ors every
more-significant byte of the window at the fixed shift 8, so any read whose
window spans three or more bytes collapses them; the claimed read-back
round-trip therefore fails.  (The claim's other half — the writer rejects
values exceeding `2^num_bits − 1` — does hold, last conjunct.) -/
theorem C9_get_set_bits_roundtrip_fails :
    set_bits_in_bytearray [0, 0, 0] 0 24 0x010203 = Except.ok [1, 2, 3] ∧
    get_bits_from_bytearray [1, 2, 3] 0 24 = 0x0303 ∧
    (0x0303 : Nat) ≠ 0x010203 ∧
    set_bits_in_bytearray [0, 0, 0] 0 24 0x1000000 =
      Except.error SetBitsError.valueTooLarge := by
  refine ⟨by rfl, by decide, by decide, by rfl⟩

/-- `pyRoundInt` fixes the integers. -/
theorem pyRoundInt_intCast (n : ℤ) : pyRoundInt (n : ℚ) = n := by
  unfold pyRoundInt
  rw [Int.floor_intCast]
  norm_num

/-- `round3` fixes the integers. -/
theorem round3_intCast (n : ℤ) : round3 (n : ℚ) = n := by
  unfold round3
  have h : ((n : ℚ) * 1000) = ((n * 1000 : ℤ) : ℚ) := by push_cast; ring
  rw [h, pyRoundInt_intCast]
  push_cast
  field_simp

/-- C6 counterexample: a group with exactly one operator field — a divisor
whose own decoding scales raw 2 to 4 — one unit field and one value field
scaling raw 100 to 100.  The engine computes the factor from the
operator's decoded `value`, not from its raw value: the output value field
carries 100 · (1/4) = 25, not the 100 · (1/2) = 50 the claim's
`factor = 1/raw_value` prescribes. -/
theorem C6_counterexample_factor_uses_decoded_value :
    TelegramFunctionGroup.get_values
        ⟨⟨[DataElt.enum divisorScaledExample, DataElt.enum unitFieldExample,
           DataElt.value valueFieldExample]⟩, Option.none⟩ [2, 0, 100] 0 true =
      some [{ shortcut := "TMP", raw_value := 100,
              stored_value := PyVal.float 25, unit := PyVal.str "m/s" },
            { shortcut := "UN", raw_value := 0,
              stored_value := PyVal.str "m/s" }] ∧
    (PyVal.float 25 : PyVal) ≠ PyVal.float (100 * (1 / 2)) := by
  constructor
  · have hr0 : get_bits_from_bytearray [2, 0, 100] 0 8 = 2 := by decide
    have hr1 : get_bits_from_bytearray [2, 0, 100] 8 8 = 0 := by decide
    have hr2 : get_bits_from_bytearray [2, 0, 100] 16 8 = 100 := by decide
    have hsc : DataValue.process_value valueFieldExample ((100 : Nat) : ℚ) = 100 := by
      unfold DataValue.process_value DataValue.multiplier valueFieldExample
      norm_num
      rw [show (100 : ℚ) = ((100 : ℤ) : ℚ) by norm_num, round3_intCast]
    have hopparse : DataEnum.parse divisorScaledExample [2, 0, 100] =
        some ⟨"DIV", 2, "", PyVal.float 4, PyVal.str "", false⟩ := by
      unfold divisorScaledExample DataEnum.parse DataEnum.get
      rw [hr0]
      simp [DataEnumRangeItem.is_in, DataEnumRangeItem.parse, PyVal.mul]
      norm_num
    have huparse : DataEnum.parse unitFieldExample [2, 0, 100] =
        some ⟨"UN", 0, "", PyVal.str "m/s", PyVal.str "", false⟩ := by
      unfold unitFieldExample DataEnum.parse DataEnum.get
      rw [hr1]
      simp [DataEnumItem.parse]
    have hvparse : DataValue.parse valueFieldExample [2, 0, 100] =
        ⟨"TMP", 100, "", PyVal.float 100, PyVal.str "", false⟩ := by
      unfold DataValue.parse DataValue.parse_raw
      rw [show valueFieldExample.offset = 16 from rfl, show valueFieldExample.size = 8 from rfl, hr2]
      rw [show valueFieldExample.shortcut = "TMP" from rfl,
        show valueFieldExample.description = "" from rfl,
        show valueFieldExample.unit = PyVal.str "" from rfl, hsc]
    have hshort1 : DataElt.shortcut (DataElt.enum divisorScaledExample) = "DIV" := rfl
    have hshort2 : DataElt.shortcut (DataElt.enum unitFieldExample) = "UN" := rfl
    have hshort3 : DataElt.shortcut (DataElt.value valueFieldExample) = "TMP" := rfl
    simp [TelegramFunctionGroup.get_values, TelegramFunctionGroup.global_factor,
        TelegramFunctionGroup.global_unit, TelegramFunctionGroup.get_values_rest,
        ProfileData.operator_indices, ProfileData.unit_indices, ProfileData.value_indices,
        ProfileData.availability_indices, ProfileData.has_value, ProfileData.has_global_operation,
        List.enum, List.enumFrom, List.filter, DataElt.is_operator_field,
        DataElt.is_unit_field, DataElt.is_value_elt, DataElt.is_availability_field,
        DataElt.parse, SHORTCUT_MULTIPLIER, SHORTCUT_DIVISOR, SHORTCUT_UNIT,
        SHORTCUT_COMMAND, SHORTCUT_TEMPERATURE_AVAILABILITY, SHORTCUT_HUMIDITY_AVAILABILITY,
        hshort1, hshort2, hshort3, hopparse, huparse, hvparse,
        List.mapM.loop, ProfileField.value,
        PyVal.mul, PyVal.truthy, PyVal.toFloat]
    norm_num
  · simp only [ne_eq, PyVal.float.injEq]
    norm_num

/-- C6 (amended): with `global_process` true and a group holding one
operator field (a divisor or multiplier enum whose single rangeitem covers
its raw value and decodes it, via the rangeitem multiplier `mv`, to
`opDecoded` with float value `q`), one unit field decoding to `fu`, and one
value field scaling its raw value `rawv` to a non-zero `scaled`:

* with the divisor, the value field is emitted with value
  `scaled * (1 / q)` — the factor is `1 /` the operator's decoded value,
  which equals `1 / raw` exactly when the operator decodes identically;
* with the multiplier, it is emitted with value `scaled * q`;
* with no operator field at all, the factor is 1;

and in each case the value field is tagged with the decoded unit
(`fu.value`) and the unit field itself is also emitted. -/
theorem C6_amended_global_operation
    (oOff oSz uOff uSz vOff vSz : Nat) (rs re : ℚ) (mv : PyVal)
    (uItems : List DataEnumItem) (uRange : List DataEnumRangeItem)
    (vs : String) (rmin rmax smin smax : ℚ)
    (payload : List Nat) (st : Nat) (opDecoded : PyVal) (q : ℚ) (fu : ProfileField)
    (hvs1 : vs ≠ "SCM") (hvs2 : vs ≠ "DIV") (hvs3 : vs ≠ "UN")
    (hvs4 : vs ≠ "TSN") (hvs5 : vs ≠ "HSN") (hvs6 : vs ≠ "CMD")
    (hin : (DataEnumRangeItem.is_in ⟨"", rs, re, mv⟩
      ((get_bits_from_bytearray payload oOff oSz : Nat) : ℚ)) = true)
    (hmul : PyVal.mul (PyVal.int (get_bits_from_bytearray payload oOff oSz)) mv =
      some opDecoded)
    (htr : opDecoded.truthy = true)
    (hq : opDecoded.toFloat = some q) (hq0 : q ≠ 0)
    (hu : DataEnum.parse ⟨"UN", "", uOff, uSz, PyVal.str "", uItems, uRange⟩ payload =
      some fu)
    (hsc : DataValue.process_value ⟨vs, "", vOff, vSz, PyVal.str "", rmin, rmax, smin, smax⟩
      ((get_bits_from_bytearray payload vOff vSz : Nat) : ℚ) ≠ 0) :
    TelegramFunctionGroup.get_values
        ⟨⟨[DataElt.enum ⟨"DIV", "", oOff, oSz, PyVal.str "", [], [⟨"", rs, re, mv⟩]⟩,
           DataElt.enum ⟨"UN", "", uOff, uSz, PyVal.str "", uItems, uRange⟩,
           DataElt.value ⟨vs, "", vOff, vSz, PyVal.str "", rmin, rmax, smin, smax⟩]⟩,
          Option.none⟩ payload st true =
      some [{ shortcut := vs, raw_value := get_bits_from_bytearray payload vOff vSz,
              stored_value := PyVal.float
                (DataValue.process_value ⟨vs, "", vOff, vSz, PyVal.str "", rmin, rmax, smin, smax⟩
                  ((get_bits_from_bytearray payload vOff vSz : Nat) : ℚ) * (1 / q)),
              unit := fu.value }, fu] ∧
    TelegramFunctionGroup.get_values
        ⟨⟨[DataElt.enum ⟨"SCM", "", oOff, oSz, PyVal.str "", [], [⟨"", rs, re, mv⟩]⟩,
           DataElt.enum ⟨"UN", "", uOff, uSz, PyVal.str "", uItems, uRange⟩,
           DataElt.value ⟨vs, "", vOff, vSz, PyVal.str "", rmin, rmax, smin, smax⟩]⟩,
          Option.none⟩ payload st true =
      some [{ shortcut := vs, raw_value := get_bits_from_bytearray payload vOff vSz,
              stored_value := PyVal.float
                (DataValue.process_value ⟨vs, "", vOff, vSz, PyVal.str "", rmin, rmax, smin, smax⟩
                  ((get_bits_from_bytearray payload vOff vSz : Nat) : ℚ) * q),
              unit := fu.value }, fu] ∧
    TelegramFunctionGroup.get_values
        ⟨⟨[DataElt.enum ⟨"UN", "", uOff, uSz, PyVal.str "", uItems, uRange⟩,
           DataElt.value ⟨vs, "", vOff, vSz, PyVal.str "", rmin, rmax, smin, smax⟩]⟩,
          Option.none⟩ payload st true =
      some [{ shortcut := vs, raw_value := get_bits_from_bytearray payload vOff vSz,
              stored_value := PyVal.float
                (DataValue.process_value ⟨vs, "", vOff, vSz, PyVal.str "", rmin, rmax, smin, smax⟩
                  ((get_bits_from_bytearray payload vOff vSz : Nat) : ℚ)),
              unit := fu.value }, fu] := by
  have hopparse : ∀ s : String,
      DataEnum.parse ⟨s, "", oOff, oSz, PyVal.str "", [], [⟨"", rs, re, mv⟩]⟩ payload =
        some ⟨s, get_bits_from_bytearray payload oOff oSz, "", opDecoded, PyVal.str "", false⟩ := by
    intro s
    unfold DataEnum.parse DataEnum.get
    have hfind : List.find?
        (fun r : DataEnumRangeItem => r.is_in ((get_bits_from_bytearray payload oOff oSz : Nat) : ℚ))
        ([⟨"", rs, re, mv⟩] : List DataEnumRangeItem) =
        some (⟨"", rs, re, mv⟩ : DataEnumRangeItem) :=
      List.find?_cons_of_pos _ hin
    simp only [List.find?_nil, hfind]
    simp [DataEnumRangeItem.parse, hmul]
  have htri : PyVal.truthy (PyVal.float (DataValue.process_value
      ⟨vs, "", vOff, vSz, PyVal.str "", rmin, rmax, smin, smax⟩
      ((get_bits_from_bytearray payload vOff vSz : Nat) : ℚ))) = true := by
    simp [PyVal.truthy, hsc]
  have hb1 : (vs == "SCM") = false := by simp [hvs1]
  have hb2 : (vs == "DIV") = false := by simp [hvs2]
  have hb3 : (vs == "UN") = false := by simp [hvs3]
  have hb4 : (vs == "TSN") = false := by simp [hvs4]
  have hb5 : (vs == "HSN") = false := by simp [hvs5]
  refine ⟨?_, ?_, ?_⟩ <;>
    simp [TelegramFunctionGroup.get_values, TelegramFunctionGroup.global_factor,
      TelegramFunctionGroup.global_unit, TelegramFunctionGroup.get_values_rest,
      ProfileData.operator_indices, ProfileData.unit_indices, ProfileData.value_indices,
      ProfileData.availability_indices, ProfileData.has_value, ProfileData.has_global_operation,
      List.enum, List.enumFrom, List.filter, DataElt.is_operator_field,
      DataElt.is_unit_field, DataElt.is_value_elt, DataElt.is_availability_field,
      DataElt.shortcut, DataElt.parse, SHORTCUT_MULTIPLIER, SHORTCUT_DIVISOR, SHORTCUT_UNIT,
      SHORTCUT_COMMAND, SHORTCUT_TEMPERATURE_AVAILABILITY, SHORTCUT_HUMIDITY_AVAILABILITY,
      hb1, hb2, hb3, hb4, hb5, hvs6, hopparse, hu, htri, htr, hq, hq0,
      List.mapM.loop, ProfileField.value, DataValue.parse, DataValue.parse_raw, PyVal.mul]

/-- C1 (the code at the claim's failing input): for a value field with
range 0..100, scale 0..200 (multiplier 2) on an 8-bit raw, decoding raw 10
gives the scaled value 20 — exactly the claim's
`m·(r−range_min)+scale_min` rounded to 3 decimals.  But `set_value`
applies `process_value`, the FORWARD range→scale map, to the value being
encoded instead of the inverse map: encoding the decoded value packs
`int(round(2·20, 3)) = 40` into the bits, and reading the raw back yields
40, not 10 — the claimed `encode(decode(r)) == r` fails.  (`set_value`'s
own comment says it should "derive raw value".) -/
theorem C1_encode_decode_not_roundtrip :
    DataValue.process_value ⟨"TMP", "", 0, 8, PyVal.str "", 0, 100, 0, 200⟩ 10 = 20 ∧
    DataValue.set_value ⟨"TMP", "", 0, 8, PyVal.str "", 0, 100, 0, 200⟩
        (DataValue.process_value ⟨"TMP", "", 0, 8, PyVal.str "", 0, 100, 0, 200⟩ 10) [0] =
      Except.ok [40] ∧
    DataValue.parse_raw ⟨"TMP", "", 0, 8, PyVal.str "", 0, 100, 0, 200⟩ [40] = 40 ∧
    (40 : Nat) ≠ 10 := by
  have hm : DataValue.multiplier ⟨"TMP", "", 0, 8, PyVal.str "", 0, 100, 0, 200⟩ = 2 := by
    unfold DataValue.multiplier
    norm_num
  have h20 : DataValue.process_value ⟨"TMP", "", 0, 8, PyVal.str "", 0, 100, 0, 200⟩ 10 = 20 := by
    unfold DataValue.process_value
    rw [hm]
    norm_num
    rw [show (20 : ℚ) = ((20 : ℤ) : ℚ) by norm_num, round3_intCast]
  have h40 : DataValue.process_value ⟨"TMP", "", 0, 8, PyVal.str "", 0, 100, 0, 200⟩ 20 = 40 := by
    unfold DataValue.process_value
    rw [hm]
    norm_num
    rw [show (40 : ℚ) = ((40 : ℤ) : ℚ) by norm_num, round3_intCast]
  refine ⟨h20, ?_, by decide, by decide⟩
  unfold DataValue.set_value
  rw [h20, h40]
  rw [show pyInt 40 = 40 by unfold pyInt; norm_num]
  rfl

/-- C10: the `ProfileField.value` accessor returns the stored decoded value
exactly when that value is truthy, and the raw unscaled value otherwise; in
particular a parsed measurement whose scaled value is exactly 0 (a falsy
float) is reported as its raw integer, not as 0. -/
theorem C10_value_accessor_truthiness (f : ProfileField) (d : DataValue)
    (payload : List Nat) :
    (f.stored_value.truthy = true → f.value = f.stored_value) ∧
    (f.stored_value.truthy = false → f.value = PyVal.int f.raw_value) ∧
    (DataValue.process_value d ((DataValue.parse_raw d payload : Nat) : ℚ) = 0 →
      (DataValue.parse d payload).value = PyVal.int (DataValue.parse_raw d payload)) := by
  refine ⟨?_, ?_, ?_⟩
  · intro h
    unfold ProfileField.value
    rw [h]
    simp
  · intro h
    unfold ProfileField.value
    rw [h]
    simp
  · intro h
    unfold DataValue.parse ProfileField.value
    simp [h, PyVal.truthy]

/-- Witness for C10: a field storing the falsy float 0.0 with raw value 7
reports 7; a value field mapping range 0..100 to scale −50..50 parses the
payload byte 50 to the scaled value 0 and its accessor reports the raw 50. -/
theorem C10_value_accessor_truthiness_witness :
    ProfileField.value ⟨"TMP", 7, "", PyVal.float 0, PyVal.str "", false⟩ = PyVal.int 7 ∧
    (DataValue.parse ⟨"TMP", "", 0, 8, PyVal.str "", 0, 100, -50, 50⟩ [50]).value =
      PyVal.int 50 := by
  have hraw : DataValue.parse_raw ⟨"TMP", "", 0, 8, PyVal.str "", 0, 100, -50, 50⟩ [50] = 50 := by
    decide
  have h0 : DataValue.process_value ⟨"TMP", "", 0, 8, PyVal.str "", 0, 100, -50, 50⟩
      ((50 : Nat) : ℚ) = 0 := by
    unfold DataValue.process_value DataValue.multiplier
    norm_num
    rw [show (0 : ℚ) = ((0 : ℤ) : ℚ) by norm_num, round3_intCast]
  constructor
  · exact (C10_value_accessor_truthiness ⟨"TMP", 7, "", PyVal.float 0, PyVal.str "", false⟩
      ⟨"TMP", "", 0, 8, PyVal.str "", 0, 100, -50, 50⟩ [50]).2.1 (by simp [PyVal.truthy])
  · have h := (C10_value_accessor_truthiness ⟨"TMP", 7, "", PyVal.float 0, PyVal.str "", false⟩
      ⟨"TMP", "", 0, 8, PyVal.str "", 0, 100, -50, 50⟩ [50]).2.2 (by rw [hraw]; exact h0)
    rw [hraw] at h
    exact h

/-- Witness for C6 at the claim's own example: an identity divisor with
raw 2, a unit field decoding to m/s, and a value field scaling raw 100 to
100 — the decode yields 50 tagged m/s (plus the unit field itself). -/
theorem C6_amended_global_operation_witness :
    TelegramFunctionGroup.get_values
        ⟨⟨[DataElt.enum ⟨"DIV", "", 0, 8, PyVal.str "", [], [⟨"", 0, 255, PyVal.int 1⟩]⟩,
           DataElt.enum ⟨"UN", "", 8, 8, PyVal.str "", [⟨0, "m/s"⟩], []⟩,
           DataElt.value ⟨"TMP", "", 16, 8, PyVal.str "", 0, 255, 0, 255⟩]⟩,
          Option.none⟩ [2, 0, 100] 0 true =
      some [{ shortcut := "TMP", raw_value := 100, stored_value := PyVal.float 50,
              unit := PyVal.str "m/s" },
            { shortcut := "UN", raw_value := 0, stored_value := PyVal.str "m/s" }] := by
  have hr0 : get_bits_from_bytearray [2, 0, 100] 0 8 = 2 := by decide
  have hr1 : get_bits_from_bytearray [2, 0, 100] 8 8 = 0 := by decide
  have hr2 : get_bits_from_bytearray [2, 0, 100] 16 8 = 100 := by decide
  have hsc : DataValue.process_value ⟨"TMP", "", 16, 8, PyVal.str "", 0, 255, 0, 255⟩
      ((100 : Nat) : ℚ) = 100 := by
    unfold DataValue.process_value DataValue.multiplier
    norm_num
    rw [show (100 : ℚ) = ((100 : ℤ) : ℚ) by norm_num, round3_intCast]
  have h := (C6_amended_global_operation 0 8 8 8 16 8 0 255 (PyVal.int 1)
    [⟨0, "m/s"⟩] [] "TMP" 0 255 0 255 [2, 0, 100] 0 (PyVal.int 2) 2
    ⟨"UN", 0, "", PyVal.str "m/s", PyVal.str "", false⟩
    (by decide) (by decide) (by decide) (by decide) (by decide) (by decide)
    (by rw [hr0]; simp [DataEnumRangeItem.is_in]; norm_num)
    (by rw [hr0]; simp [PyVal.mul])
    (by decide)
    (by simp [PyVal.toFloat])
    (by norm_num)
    (by unfold DataEnum.parse DataEnum.get
        rw [hr1]
        simp [DataEnumItem.parse])
    (by rw [hr2, hsc]; norm_num)).1
  rw [hr2, hsc] at h
  rw [show (100 : ℚ) * (1 / 2) = 50 by norm_num] at h
  rw [show ProfileField.value ⟨"UN", 0, "", PyVal.str "m/s", PyVal.str "", false⟩ =
    PyVal.str "m/s" by simp [ProfileField.value, PyVal.truthy]] at h
  exact h

/-- The two header length bytes written by `Packet.build` reassemble to the
data length under the controller's `int.from_bytes` arithmetic. -/
theorem hiLo_arith (D : Nat) (h : D < 65536) :
    ((D >>> 8) &&& 0xFF) * 256 + (D &&& 0xFF) = D := by
  have hlo256 : D &&& 0xFF < 256 := by
    rw [show (0xFF : Nat) = 2 ^ 8 - 1 from rfl, Nat.and_pow_two_sub_one_eq_mod]
    exact Nat.mod_lt _ (by norm_num)
  rw [← lor_shift8 _ _ hlo256]
  exact hiLo_roundtrip D h

/-- Round-trip of the frame slicer: `parse_frame` on the bytes built from
any packet whose data length fits the length field returns the packet. -/
theorem Packet.parse_frame_build (p : Packet) (h : p.data.length < 65536) :
    Packet.parse_frame p.build = Except.ok ⟨p.packet_type, p.data, p.optional⟩ := by
  obtain ⟨ty, data, opt⟩ := p
  simp only at h
  set D := data.length with hD
  set O := opt.length with hO
  set hi := (D >>> 8) &&& 0xFF with hhi
  set lo := D &&& 0xFF with hlo
  set hc := crc8_calc [hi, lo, O, ty] with hhc
  set dc := crc8_calc (data ++ opt) with hdc
  set L := 0x55 :: hi :: lo :: O :: ty :: hc :: (data ++ opt ++ [dc]) with hL
  have hbuild : Packet.build ⟨ty, data, opt⟩ = L := by
    rw [Packet.build_eq, hL]; simp
  have hsplit : L = [0x55, hi, lo, O, ty, hc] ++ ((data ++ opt) ++ [dc]) := by
    rw [hL]; simp
  have hdataLen : (L.getD 1 0) * 256 + L.getD 2 0 = D := by
    rw [hL]
    simp only [List.getD_cons_succ, List.getD_cons_zero]
    rw [hhi, hlo]
    exact hiLo_arith D h
  have hoptLen : L.getD 3 0 = O := by
    rw [hL]; simp only [List.getD_cons_succ, List.getD_cons_zero]
  have hgetD4 : L.getD 4 0 = ty := by
    rw [hL]; simp only [List.getD_cons_succ, List.getD_cons_zero]
  have hgetDend : L.getD (6 + D + O) 0 = dc := by
    rw [hsplit, List.getD_append_right _ _ _ _ (by simp; omega)]
    have h1 : 6 + D + O - ([0x55, hi, lo, O, ty, hc] : List Nat).length = D + O := by
      simp; omega
    rw [h1, List.getD_append_right _ _ _ _ (by simp [hD, hO])]
    have h2 : D + O - (data ++ opt).length = 0 := by simp [hD, hO]
    rw [h2, List.getD_cons_zero]
  have hdrop6 : L.drop 6 = (data ++ opt) ++ [dc] := by
    rw [hsplit]
    exact List.drop_left' (by simp)
  have hdata : (L.drop 6).take D = data := by
    rw [hdrop6, List.append_assoc]
    exact List.take_left' hD.symm
  have hopt : (L.drop (6 + D)).take O = opt := by
    have hsplit2 : L = ([0x55, hi, lo, O, ty, hc] ++ data) ++ (opt ++ [dc]) := by
      rw [hL]; simp
    rw [hsplit2, List.drop_left' (by simp [hD]; omega)]
    exact List.take_left' hO.symm
  rw [hbuild]
  unfold Packet.parse_frame
  rw [hdataLen, hoptLen, hgetD4, hgetDend, hdata, hopt]
  rw [if_neg (by rw [hdc]; exact not_ne_iff.mpr rfl)]

/-- `ute_respond` only touches the transmit queue. -/
theorem ute_respond_fields (s : CState) (p : Packet) :
    (ute_respond s p).buffer = s.buffer ∧
    (ute_respond s p).next_sync_byte = s.next_sync_byte ∧
    (ute_respond s p).crc_errors = s.crc_errors ∧
    (ute_respond s p).command_queue = s.command_queue ∧
    (ute_respond s p).base_id = s.base_id := by
  unfold ute_respond
  split_ifs <;> simp

/-- With an empty command queue the dispatch returns the packet and leaves
the buffer, the sync index, the CRC counter and `base_id` unchanged. -/
theorem dispatch_packet_queue_nil (s : CState) (p : Packet)
    (h : s.command_queue = []) :
    (dispatch_packet s p).2 = ReadResult.ok p ∧
    (dispatch_packet s p).1.buffer = s.buffer ∧
    (dispatch_packet s p).1.next_sync_byte = s.next_sync_byte ∧
    (dispatch_packet s p).1.crc_errors = s.crc_errors := by
  obtain ⟨hb, hn, hc, hq, hi⟩ := ute_respond_fields s p
  unfold dispatch_packet
  split_ifs with h1 h2 h3
  · simp [hb, hn, hc]
  · exact absurd h h2.2
  · exact absurd h h2.2
  · simp

/-- `BaseController.read` on a buffer that starts with the wire bytes of a
packet: the frame is sliced off, parsed back to the packet and
dispatched. -/
theorem BaseController.read_build (s : CState) (p : Packet) (rest : List Nat)
    (hbuf : s.buffer = p.build ++ rest) (h : p.data.length < 65536) :
    BaseController.read s =
      dispatch_packet { s with next_sync_byte := 1, buffer := rest }
        ⟨p.packet_type, p.data, p.optional⟩ := by
  obtain ⟨ty, data, opt⟩ := p
  simp only at h
  set D := data.length with hD
  set O := opt.length with hO
  set hi := (D >>> 8) &&& 0xFF with hhi
  set lo := D &&& 0xFF with hlo
  set hc := crc8_calc [hi, lo, O, ty] with hhc
  set dc := crc8_calc (data ++ opt) with hdc
  set L := 0x55 :: hi :: lo :: O :: ty :: hc :: (data ++ opt ++ [dc]) with hL
  have hbuild : Packet.build ⟨ty, data, opt⟩ = L := by
    rw [Packet.build_eq, hL]; simp
  have hLlen : L.length = 7 + D + O := by
    rw [hL]; simp [hD, hO]; omega
  have hBlen : (L ++ rest).length = 7 + D + O + rest.length := by
    simp [hLlen]
  have hheader : ((L ++ rest).drop 1).take 4 = [hi, lo, O, ty] := by
    rw [hL]; rfl
  have hgetD5 : (L ++ rest).getD 5 0 = hc := by
    rw [hL]; rfl
  have hgetD1 : (L ++ rest).getD 1 0 = hi := by rw [hL]; rfl
  have hgetD2 : (L ++ rest).getD 2 0 = lo := by rw [hL]; rfl
  have hgetD3 : (L ++ rest).getD 3 0 = O := by rw [hL]; rfl
  have harith : hi * 256 + lo = D := by rw [hhi, hlo]; exact hiLo_arith D h
  have htake : (L ++ rest).take (7 + D + O) = L := List.take_left' hLlen
  have hdrop : (L ++ rest).drop (7 + D + O) = rest := List.drop_left' hLlen
  have hparse : Packet.parse_frame L = Except.ok ⟨ty, data, opt⟩ := by
    rw [← hbuild]
    exact Packet.parse_frame_build ⟨ty, data, opt⟩ h
  rw [hbuild] at hbuf
  unfold BaseController.read
  rw [hbuf]
  rw [if_neg (by rw [hBlen]; omega)]
  rw [hheader, hgetD5, if_pos (by rw [hhc])]
  rw [hgetD1, hgetD2, hgetD3, harith]
  unfold BaseController.read_framed
  rw [hbuf]
  rw [if_neg (by rw [hBlen]; omega), htake, hdrop, hparse]

/-- C8: for every SIGNAL (0xD0) telegram MID outside the known set
{0x06, 0x07, 0x08, 0x0A, 0x10, 0x12, 0x13}, the signal decode fails with
`SignalNotSupported`; the error value carries no decoded field set. -/
theorem C8_unknown_signal_mid (mid : Nat)
    (h : mid ∉ [0x06, 0x07, 0x08, 0x0A, 0x10, 0x12, 0x13]) :
    lookup_signal_definition mid = Except.error SignalError.signalNotSupported := by
  simp only [List.mem_cons, not_or] at h
  obtain ⟨h1, h2, h3, h4, h5, h6, h7, -⟩ := h
  have b1 : (0x06 == mid) = false := beq_eq_false_iff_ne.mpr (Ne.symm h1)
  have b2 : (0x07 == mid) = false := beq_eq_false_iff_ne.mpr (Ne.symm h2)
  have b3 : (0x08 == mid) = false := beq_eq_false_iff_ne.mpr (Ne.symm h3)
  have b4 : (0x0A == mid) = false := beq_eq_false_iff_ne.mpr (Ne.symm h4)
  have b5 : (0x10 == mid) = false := beq_eq_false_iff_ne.mpr (Ne.symm h5)
  have b6 : (0x12 == mid) = false := beq_eq_false_iff_ne.mpr (Ne.symm h6)
  have b7 : (0x13 == mid) = false := beq_eq_false_iff_ne.mpr (Ne.symm h7)
  simp [lookup_signal_definition, SignalDefinitions, List.find?,
    b1, b2, b3, b4, b5, b6, b7]

/-- Witness for C8 at the spec's own example of an unknown MID, 0x11. -/
theorem C8_unknown_signal_mid_witness :
    (0x11 : Nat) ∉ [0x06, 0x07, 0x08, 0x0A, 0x10, 0x12, 0x13] ∧
    lookup_signal_definition 0x11 = Except.error SignalError.signalNotSupported :=
  ⟨by decide, C8_unknown_signal_mid 0x11 (by decide)⟩

/-- C7, counterexample: a Response packet (type 2) whose data is
`[0x00, 0xAA, 0xBB, 0xCC, 0xDD, 0x0A]` (base id AA:BB:CC:DD, one
remaining-writes byte 0x0A) arrives while `CO_RD_IDBASE` is the oldest
queued command.  The scanner pops the command, but `base_id` is set to
`response_data` — all five bytes of `data[1:]`, the remaining-writes byte
included — not to the four-byte base id the spec states (the counter is
carried in `optional[0]`, which the assignment ignores). -/
theorem C7_counterexample_base_id_takes_whole_response :
    ((BaseController.read
        { buffer := (Packet.mk 2 [0x00, 0xAA, 0xBB, 0xCC, 0xDD, 0x0A] [0x0A]).build,
          command_queue := [0x08] }).1.base_id =
        some [0xAA, 0xBB, 0xCC, 0xDD, 0x0A] ∧
      (BaseController.read
        { buffer := (Packet.mk 2 [0x00, 0xAA, 0xBB, 0xCC, 0xDD, 0x0A] [0x0A]).build,
          command_queue := [0x08] }).1.command_queue = []) ∧
    some [0xAA, 0xBB, 0xCC, 0xDD, 0x0A] ≠ (some [0xAA, 0xBB, 0xCC, 0xDD] : Option (List Nat)) := by
  exact ⟨⟨by decide, by decide⟩, by decide⟩

/-- C7, amended: when a Response packet arrives while the command queue is
non-empty and the oldest outstanding code is `CO_RD_IDBASE`, the code is
popped and `base_id` is set to the packet's whole `response_data`, i.e.
`data[1:]` — for a response `data = [0x00, b0, b1, b2, b3, rem]` that is
the five bytes `[b0, b1, b2, b3, rem]`, not `[b0, b1, b2, b3]`. -/
theorem C7_amended_base_id_assignment (s : CState) (p : Packet)
    (rest q : List Nat)
    (hbuf : s.buffer = p.build ++ rest)
    (hq : s.command_queue = CommandCode.CO_RD_IDBASE :: q)
    (hty : p.packet_type = 2)
    (hD : p.data.length < 65536) :
    (BaseController.read s).1.command_queue = q ∧
    (BaseController.read s).1.base_id = some p.response_data ∧
    (BaseController.read s).1.base_id = some (p.data.drop 1) ∧
    (BaseController.read s).2 = ReadResult.ok ⟨p.packet_type, p.data, p.optional⟩ := by
  rw [BaseController.read_build s p rest hbuf hD]
  obtain ⟨ty, data, opt⟩ := p
  simp only at hty
  subst hty
  simp [dispatch_packet, parse_common_command_response, hq, Packet.response_data,
    CommandCode.CO_RD_VERSION, CommandCode.CO_RD_IDBASE]

/-- Witness for C7's amended theorem: the scenario of the spec's adapter
initialisation, base id `FF:87:CA:00` with 10 remaining writes. -/
theorem C7_amended_base_id_assignment_witness :
    (BaseController.read
      { buffer := (Packet.mk 2 [0x00, 0xFF, 0x87, 0xCA, 0x00, 0x0A] [0x0A]).build,
        command_queue := [0x08] }).1.command_queue = [] ∧
    (BaseController.read
      { buffer := (Packet.mk 2 [0x00, 0xFF, 0x87, 0xCA, 0x00, 0x0A] [0x0A]).build,
        command_queue := [0x08] }).1.base_id =
      some (Packet.mk 2 [0x00, 0xFF, 0x87, 0xCA, 0x00, 0x0A] [0x0A]).response_data ∧
    (BaseController.read
      { buffer := (Packet.mk 2 [0x00, 0xFF, 0x87, 0xCA, 0x00, 0x0A] [0x0A]).build,
        command_queue := [0x08] }).1.base_id =
      some ((Packet.mk 2 [0x00, 0xFF, 0x87, 0xCA, 0x00, 0x0A] [0x0A]).data.drop 1) ∧
    (BaseController.read
      { buffer := (Packet.mk 2 [0x00, 0xFF, 0x87, 0xCA, 0x00, 0x0A] [0x0A]).build,
        command_queue := [0x08] }).2 =
      ReadResult.ok ⟨2, [0x00, 0xFF, 0x87, 0xCA, 0x00, 0x0A], [0x0A]⟩ :=
  C7_amended_base_id_assignment
    { buffer := (Packet.mk 2 [0x00, 0xFF, 0x87, 0xCA, 0x00, 0x0A] [0x0A]).build,
      command_queue := [0x08] }
    (Packet.mk 2 [0x00, 0xFF, 0x87, 0xCA, 0x00, 0x0A] [0x0A]) [] []
    (by simp) rfl rfl (by decide)

/-- C5: a buffer holding junk whose header fails the CRC-8 check (and that
contains no further 0x55 after its first byte), followed by the wire bytes
of a packet and arbitrary trailing bytes: the first scan surfaces a CRC
mismatch, advances the buffer to the frame's sync byte and increments
`crc_errors` by one; the next scan parses the frame and hands the packet
back, consuming it from the buffer, with `crc_errors` incremented by
exactly one in total. -/
theorem C5_header_crc_mismatch_resync (s : CState) (junk rest : List Nat)
    (p : Packet)
    (hbuf : s.buffer = junk ++ p.build ++ rest)
    (hsync : s.next_sync_byte = 1)
    (hq : s.command_queue = [])
    (hj : 6 ≤ junk.length)
    (hjcrc : crc8_calc ((junk.drop 1).take 4) ≠ junk.getD 5 0)
    (h55 : (0x55 : Nat) ∉ junk.drop 1)
    (hD : p.data.length < 65536) :
    (BaseController.read s).2 = ReadResult.crcMismatch ∧
    (BaseController.read s).1.buffer = p.build ++ rest ∧
    (BaseController.read s).1.crc_errors = s.crc_errors + 1 ∧
    (BaseController.read (BaseController.read s).1).2 =
      ReadResult.ok ⟨p.packet_type, p.data, p.optional⟩ ∧
    (BaseController.read (BaseController.read s).1).1.buffer = rest ∧
    (BaseController.read (BaseController.read s).1).1.crc_errors = s.crc_errors + 1 := by
  have hb1 : s.buffer = junk ++ (p.build ++ rest) := by
    rw [hbuf, List.append_assoc]
  have hblen : p.build.length = 7 + p.data.length + p.optional.length := by
    rw [Packet.build_eq]; simp; omega
  have hlen : ¬ (s.buffer.length ≤ 5) := by
    rw [hb1]; simp; omega
  have hheader : (s.buffer.drop 1).take 4 = (junk.drop 1).take 4 := by
    rw [hb1, List.drop_append_of_le_length (by omega),
      List.take_append_of_le_length (by simp; omega)]
  have hgetD5 : s.buffer.getD 5 0 = junk.getD 5 0 := by
    rw [hb1]; exact List.getD_append _ _ _ _ (by omega)
  have hnone : (junk.drop 1).findIdx? (fun b => b == 0x55) = Option.none := by
    refine List.findIdx?_eq_none_iff.mpr (fun x hx => ?_)
    exact beq_eq_false_iff_ne.mpr (fun he => h55 (he ▸ hx))
  have hT : p.build ++ rest = 0x55 ::
      ([(p.data.length >>> 8) &&& 0xFF, p.data.length &&& 0xFF,
          p.optional.length, p.packet_type,
          crc8_calc [(p.data.length >>> 8) &&& 0xFF, p.data.length &&& 0xFF,
            p.optional.length, p.packet_type]] ++
        (p.data ++ (p.optional ++ crc8_calc (p.data ++ p.optional) :: rest))) := by
    rw [Packet.build_eq]; simp
  have hfi : (s.buffer.drop 1).findIdx? (fun b => b == 0x55) =
      some (0 + (junk.drop 1).length) := by
    rw [hb1, List.drop_append_of_le_length (by omega), List.findIdx?_append, hnone, hT,
      List.findIdx?_cons]
    simp
  have hfind : pyFind s.buffer 0x55 s.next_sync_byte = (junk.length : Int) := by
    unfold pyFind
    rw [hsync, hfi]
    simp only [List.length_drop]
    omega
  have hdropj : pyDropFrom s.buffer (junk.length : Int) = p.build ++ rest := by
    unfold pyDropFrom
    rw [if_pos (by positivity)]
    rw [hb1, Int.toNat_natCast, List.drop_left' rfl]
  have hread1 : BaseController.read s =
      ({ s with buffer := p.build ++ rest, crc_errors := s.crc_errors + 1 },
        ReadResult.crcMismatch) := by
    unfold BaseController.read
    rw [if_neg hlen, hheader, hgetD5, if_neg hjcrc, hfind, hdropj]
  have hread2 : BaseController.read
      { s with buffer := p.build ++ rest, crc_errors := s.crc_errors + 1 } =
      dispatch_packet
        { s with buffer := rest, next_sync_byte := 1, crc_errors := s.crc_errors + 1 }
        ⟨p.packet_type, p.data, p.optional⟩ := by
    exact BaseController.read_build _ p rest rfl hD
  obtain ⟨hd2, hdb, hdn, hdc⟩ := dispatch_packet_queue_nil
    { s with buffer := rest, next_sync_byte := 1, crc_errors := s.crc_errors + 1 }
    ⟨p.packet_type, p.data, p.optional⟩ (by simp [hq])
  refine ⟨by rw [hread1], by rw [hread1], by rw [hread1], ?_, ?_, ?_⟩
  · rw [hread1]
    simp only
    rw [hread2]
    exact hd2
  · rw [hread1]
    simp only
    rw [hread2, hdb]
  · rw [hread1]
    simp only
    rw [hread2, hdc]

/-- Witness for C5: six junk bytes starting at a sync byte with a bad
header CRC, followed by a valid RPS radio frame. -/
theorem C5_header_crc_mismatch_resync_witness :
    (BaseController.read
      { buffer := [0x55, 0, 0, 0, 0, 1] ++
          (Packet.mk 1 [0xF6, 1, 2, 3, 4, 5, 0] []).build ++ [] }).2 =
      ReadResult.crcMismatch ∧
    (BaseController.read
      { buffer := [0x55, 0, 0, 0, 0, 1] ++
          (Packet.mk 1 [0xF6, 1, 2, 3, 4, 5, 0] []).build ++ [] }).1.buffer =
      (Packet.mk 1 [0xF6, 1, 2, 3, 4, 5, 0] []).build ++ [] ∧
    (BaseController.read
      { buffer := [0x55, 0, 0, 0, 0, 1] ++
          (Packet.mk 1 [0xF6, 1, 2, 3, 4, 5, 0] []).build ++ [] }).1.crc_errors =
      ({ buffer := [0x55, 0, 0, 0, 0, 1] ++
          (Packet.mk 1 [0xF6, 1, 2, 3, 4, 5, 0] []).build ++ [] } : CState).crc_errors + 1 ∧
    (BaseController.read (BaseController.read
      { buffer := [0x55, 0, 0, 0, 0, 1] ++
          (Packet.mk 1 [0xF6, 1, 2, 3, 4, 5, 0] []).build ++ [] }).1).2 =
      ReadResult.ok ⟨1, [0xF6, 1, 2, 3, 4, 5, 0], []⟩ ∧
    (BaseController.read (BaseController.read
      { buffer := [0x55, 0, 0, 0, 0, 1] ++
          (Packet.mk 1 [0xF6, 1, 2, 3, 4, 5, 0] []).build ++ [] }).1).1.buffer = [] ∧
    (BaseController.read (BaseController.read
      { buffer := [0x55, 0, 0, 0, 0, 1] ++
          (Packet.mk 1 [0xF6, 1, 2, 3, 4, 5, 0] []).build ++ [] }).1).1.crc_errors =
      ({ buffer := [0x55, 0, 0, 0, 0, 1] ++
          (Packet.mk 1 [0xF6, 1, 2, 3, 4, 5, 0] []).build ++ [] } : CState).crc_errors + 1 :=
  C5_header_crc_mismatch_resync
    { buffer := [0x55, 0, 0, 0, 0, 1] ++
        (Packet.mk 1 [0xF6, 1, 2, 3, 4, 5, 0] []).build ++ [] }
    [0x55, 0, 0, 0, 0, 1] [] (Packet.mk 1 [0xF6, 1, 2, 3, 4, 5, 0] [])
    rfl rfl rfl (by decide) (by decide) (by decide) (by decide)

end Enocean
